import Mathlib

/-!
# Verification of the bob-the-builder control plane and execution engine

Shallow embedding of the core of the `sociotechnica-org/bob-the-builder`
repository (TypeScript, Cloudflare workers): the shared contract layer
(`packages/core/src/index.ts`), the coderunner adapter
(`packages/adapters-coderunner/src/index.ts`), the queue-consumer execution
engine (`apps/queue-consumer-worker/src/index.ts`, which ships two successive
revisions of the worker: the PR2 workflow skeleton and the final
adapter-driven engine), and the control worker
(`apps/control-worker/src/index.ts`).

Modelling conventions:
* D1/SQLite tables become lists of row structures; every SQL statement is a
  Lean function on the database state implementing its exact WHERE/COALESCE
  semantics, returning the changed-row count where the code reads it.
* Timestamps: `new Date().toISOString()` and `Date.now()` are the same
  instant, threaded as an integer millisecond clock `now`. A stored timestamp
  string is modelled by its `Date.parse` result: `TimeStr := Option Int`,
  `none` standing for a string that parses to `NaN`; an SQL `NULL` column is
  an outer `Option`.
* `JSON.stringify` of station metadata is modelled by the structured value
  itself (the encoding is injective and never inspected as text by the code);
  artifact payloads are likewise structured values.
* The heartbeat `setInterval` ticker only rewrites `runs.heartbeat_at` and is
  torn down on station exit; it is elided from the sequential model.
* Queue `ack`/`retry` and `console.log` events are returned as data.
-/

namespace Bob

/-! ## packages/core: contract layer -/

/-- Embeds `STATION_NAMES` from `packages/core/src/index.ts`. -/
def STATION_NAMES : List String := ["intake", "plan", "implement", "verify", "create_pr"]

/-- Embeds `RUN_STATUSES` from `packages/core/src/index.ts`. -/
def RUN_STATUSES : List String := ["queued", "running", "succeeded", "failed", "canceled"]

/-- Embeds `TERMINAL_RUN_STATUSES` from `packages/core/src/index.ts`. -/
def TERMINAL_RUN_STATUSES : List String := ["succeeded", "failed", "canceled"]

/-- Embeds `isRunStatus` from `packages/core/src/index.ts`. -/
def isRunStatus (value : String) : Bool := RUN_STATUSES.contains value

/-- Embeds `isTerminalRunStatus` from `packages/core/src/index.ts`. -/
def isTerminalRunStatus (status : String) : Bool := TERMINAL_RUN_STATUSES.contains status

/-- Embeds `isPrMode` from `packages/core/src/index.ts` (`PR_MODES = ["draft", "ready"]`). -/
def isPrMode (value : String) : Bool := value = "draft" || value = "ready"

/-- Embeds `isStationName` from `packages/core/src/index.ts`. -/
def isStationName (value : String) : Bool := STATION_NAMES.contains value

/-- Embeds `isExecutionPhase` from `packages/core/src/index.ts`
(`EXECUTION_PHASES = ["implement", "verify"]`). -/
def isExecutionPhase (value : String) : Bool := value = "implement" || value = "verify"

/-- Embeds `isExecutionOutcome` from `packages/core/src/index.ts`
(`EXECUTION_OUTCOMES = ["succeeded", "failed", "canceled", "timeout"]`). -/
def isExecutionOutcome (value : String) : Bool :=
  value = "succeeded" || value = "failed" || value = "canceled" || value = "timeout"

/-- Embeds `isCoderunnerMode` from `packages/core/src/index.ts`
(`CODERUNNER_MODES = ["mock", "modal"]`). -/
def isCoderunnerMode (value : String) : Bool := value = "mock" || value = "modal"

/-- Embeds `STATION_TRANSITIONS` from `packages/core/src/index.ts`. -/
def STATION_TRANSITIONS (from_ : String) : List String :=
  if from_ = "pending" then ["running", "skipped"]
  else if from_ = "running" then ["succeeded", "failed", "skipped"]
  else []

/-- Embeds `canTransitionStationStatus` from `packages/core/src/index.ts`. -/
def canTransitionStationStatus (from_ to_ : String) : Bool :=
  (STATION_TRANSITIONS from_).contains to_

/-- A stored timestamp string, modelled by its `Date.parse` result
(`some ms`, or `none` when the string parses to `NaN`). -/
def TimeStr := Option Int
deriving DecidableEq, Repr

/-- Embeds `StationExecutionMetadata` (`{phase, mode, attempt, providerStatus?, updatedAt?}`),
the parsed form of a `metadata_json` column; `updatedAt` carries the adapter's
`nowIso()` in the millisecond clock model. -/
structure StationMetadata where
  phase : String
  mode : String
  attempt : Int
  providerStatus : Option String
  updatedAt : Option Int
deriving DecidableEq, Repr

/-- Embeds `isStationExecutionMetadata` from `packages/core/src/index.ts`: the shape
check performed on parsed metadata (phase and mode enums, integer attempt ≥ 1).
Integrality of `attempt` is intrinsic to the `Int` field. -/
def isStationExecutionMetadata (m : StationMetadata) : Bool :=
  isExecutionPhase m.phase && isCoderunnerMode m.mode && m.attempt ≥ 1

/-- Embeds `parseStationExecutionMetadataJson` from `packages/core/src/index.ts`:
`none` input is the `null`/empty column, and a stored value that fails the
shape check is rejected. JSON parse errors cannot arise because the column is
modelled by its parsed value. -/
def parseStationExecutionMetadataJson (metadataJson : Option StationMetadata) :
    Option StationMetadata :=
  match metadataJson with
  | none => none
  | some m => if isStationExecutionMetadata m then some m else none

/-- Embeds `CoderunnerResumeInput` from `packages/core/src/index.ts`. -/
structure CoderunnerResumeInput where
  externalRef : String
  metadata : Option StationMetadata
deriving DecidableEq, Repr

/-- The `repo` block of `CoderunnerTaskInput`. -/
structure TaskRepo where
  id : String
  owner : String
  name : String
  baseBranch : String
  configPath : String
deriving DecidableEq, Repr

/-- Embeds `CoderunnerTaskInput` from `packages/core/src/index.ts`. -/
structure CoderunnerTaskInput where
  runId : String
  issueNumber : Int
  goal : Option String
  requestor : String
  prMode : String
  repo : TaskRepo
  resume : Option CoderunnerResumeInput
deriving DecidableEq, Repr

/-- Embeds `StationExecutionResult`: the terminal variant of `StationExecutionResponse`. -/
structure StationResult where
  outcome : String
  summary : String
  logsInline : Option String
  externalRef : Option String
  metadata : Option StationMetadata
deriving DecidableEq, Repr

/-- Embeds `StationExecutionResponse`: the tagged union discriminated by `outcome`;
`inProgress` is the `outcome: null` variant (which requires `externalRef`). -/
inductive StationResponse where
  | inProgress (summary : String) (externalRef : String) (metadata : Option StationMetadata)
  | result (r : StationResult)
deriving DecidableEq, Repr

/-- Embeds `isTerminalStationExecutionResponse` from `packages/core/src/index.ts`:
`value.outcome !== null`. -/
def isTerminalStationExecutionResponse : StationResponse → Bool
  | .inProgress _ _ _ => false
  | .result _ => true

/-- The `outcome` discriminant of a `StationExecutionResponse` (`null` on the
non-terminal variant). -/
def StationResponse.outcomeOf : StationResponse → Option String
  | .inProgress _ _ _ => none
  | .result r => some r.outcome

/-- The `externalRef` field of a `StationExecutionResponse`. -/
def StationResponse.externalRefOf : StationResponse → Option String
  | .inProgress _ ref _ => some ref
  | .result r => r.externalRef

/-! ### `isRunQueueMessage`: validation of an untyped queue message body

The body of a delivered queue message is `unknown`; we embed the JavaScript
value universe far enough to express the `typeof`/`Number.isInteger` checks
the guard performs. -/

/-- A JavaScript value as inspected by the type guards: `vnumInt` is a number
with `Number.isInteger(x) = true`, `vnumFrac` any other number. -/
inductive JsVal where
  | vnull
  | vundefined
  | vbool (b : Bool)
  | vnumInt (n : Int)
  | vnumFrac
  | vstr (s : String)
  | vobj (fields : List (String × JsVal))
deriving Repr

/-- Property access `candidate.f`: `undefined` on a missing key or a
non-object. -/
def JsVal.getField : JsVal → String → JsVal
  | .vobj fields, key =>
    match fields.find? (fun p => p.1 = key) with
    | some p => p.2
    | none => .vundefined
  | _, _ => .vundefined

/-- Embeds `typeof v === "string"`. -/
def JsVal.isString : JsVal → Bool
  | .vstr _ => true
  | _ => false

/-- Embeds `Number.isInteger(v)`. -/
def JsVal.isIntegerNum : JsVal → Bool
  | .vnumInt _ => true
  | _ => false

/-- Embeds `isRunQueueMessage` from `packages/core/src/index.ts`: the guard first
rejects falsy and non-object values (`!value || typeof value !== "object"`;
`null` is falsy), then checks each field. Note that `issueNumber` is only
required to satisfy `Number.isInteger` — no positivity check. -/
def isRunQueueMessage (value : JsVal) : Bool :=
  match value with
  | .vobj _ =>
    (value.getField "runId").isString &&
    (value.getField "repoId").isString &&
    (value.getField "issueNumber").isIntegerNum &&
    (value.getField "requestedAt").isString &&
    (value.getField "requestor").isString &&
    ((value.getField "prMode").isString &&
      (match value.getField "prMode" with
       | .vstr s => isPrMode s
       | _ => false))
  | _ => false

/-- The typed `RunQueueMessage` extracted from a body that passed
`isRunQueueMessage` (used as `const payload: RunQueueMessage = message.body`). -/
structure RunQueueMessage where
  runId : String
  repoId : String
  issueNumber : Int
  requestedAt : String
  prMode : String
  requestor : String
deriving DecidableEq, Repr

/-- Field extraction after the guard has accepted the body (each accessor is
total; the defaults are unreachable under `isRunQueueMessage = true`). -/
def JsVal.asString (v : JsVal) : String :=
  match v with
  | .vstr s => s
  | _ => ""

/-- Integer extraction after the guard accepted the field. -/
def JsVal.asInt (v : JsVal) : Int :=
  match v with
  | .vnumInt n => n
  | _ => 0

/-- The payload read off a validated message body. -/
def toRunQueueMessage (value : JsVal) : RunQueueMessage :=
  { runId := (value.getField "runId").asString
    repoId := (value.getField "repoId").asString
    issueNumber := (value.getField "issueNumber").asInt
    requestedAt := (value.getField "requestedAt").asString
    prMode := (value.getField "prMode").asString
    requestor := (value.getField "requestor").asString }

/-! ## packages/adapters-coderunner: the coderunner adapter -/

/-- Case-insensitive substring search on character lists, implementing
`String.prototype.includes` after `toLowerCase` has been applied by the
caller. -/
def charsContain (l pattern : List Char) : Bool :=
  pattern.isPrefixOf l ||
    match l with
    | [] => false
    | _ :: t => charsContain t pattern

/-- Embeds `goal?.toLowerCase().includes(marker) ?? false` — `shouldMockFail` from
`packages/adapters-coderunner/src/index.ts` (`toLowerCase` applied
character-wise). -/
def shouldMockFail (goal : Option String) (marker : String) : Bool :=
  match goal with
  | none => false
  | some g => charsContain (g.data.map Char.toLower) marker.data

/-- Embeds `parseMockOutcome` from `packages/adapters-coderunner/src/index.ts`.
Note that it receives only the goal — not the phase — so the
`[verify-fail]` marker is applied in every phase. -/
def parseMockOutcome (goal : Option String) : String :=
  if shouldMockFail goal "[mock-timeout]" then "timeout"
  else if shouldMockFail goal "[mock-canceled]" then "canceled"
  else if shouldMockFail goal "[mock-fail]" || shouldMockFail goal "[verify-fail]" then "failed"
  else "succeeded"

/-- Embeds `buildMetadata` from `ClaudeCodeRunner` (mode fixed by the adapter
construction; `nowIso()` is the adapter clock). -/
def buildMetadata (mode : String) (adapterNow : Int) (phase : String)
    (input : CoderunnerTaskInput) (providerStatus : String) : StationMetadata :=
  let previousAttempt := input.resume.bind (fun r => r.metadata.map (·.attempt))
  let attempt : Int :=
    match previousAttempt with
    | some p => if p ≥ 1 then p + 1 else 1
    | none => 1
  { phase := phase
    mode := mode
    attempt := attempt
    providerStatus := some providerStatus
    updatedAt := some adapterNow }

/-- Embeds `runMockTask` from `ClaudeCodeRunner`: deterministic synchronous result
in mock mode. The `logsInline` lines are joined with the two-character
sequence backslash-n exactly as in the source (`join("\\n")`). -/
def runMockTask (adapterNow : Int) (phase : String) (input : CoderunnerTaskInput) :
    StationResponse :=
  let outcome := parseMockOutcome input.goal
  let summaryLead := if phase = "implement" then "Implement" else "Verify"
  let summary :=
    if outcome = "succeeded" then summaryLead ++ " completed in mock mode"
    else summaryLead ++ " " ++ outcome ++ " in mock mode"
  let externalRef :=
    match input.resume with
    | some r => r.externalRef
    | none => "mock_" ++ phase ++ "_" ++ input.runId
  let logsInline :=
    "[mock/" ++ phase ++ "] repo=" ++ input.repo.owner ++ "/" ++ input.repo.name ++ "\\n" ++
    "[mock/" ++ phase ++ "] issue=" ++ toString input.issueNumber ++ "\\n" ++
    "[mock/" ++ phase ++ "] outcome=" ++ outcome
  .result
    { outcome := outcome
      summary := summary
      logsInline := some logsInline
      externalRef := some externalRef
      metadata := some (buildMetadata "mock" adapterNow phase input outcome) }

/-- Embeds `CoderunnerError`: carries the `retryable` flag and category code. -/
structure CoderunnerErr where
  message : String
  retryable : Bool
  code : String
deriving DecidableEq, Repr

/-- Embeds `isRetryableCoderunnerError` from `packages/adapters-coderunner/src/index.ts`,
restricted to the `CoderunnerError` branch of `instanceof`. -/
def isRetryableCoderunnerError (e : CoderunnerErr) : Bool := e.retryable

/-- Embeds `executeTask` from `ClaudeCodeRunner`, specialised to `mode = "mock"`:
the first branch returns `runMockTask` directly, so the modal transport is
never consulted. -/
def executeTaskMock (adapterNow : Int) (phase : String) (input : CoderunnerTaskInput) :
    Except CoderunnerErr StationResponse :=
  .ok (runMockTask adapterNow phase input)

/-- Embeds `runImplementTask` of the mock-mode adapter. -/
def runImplementTaskMock (adapterNow : Int) (input : CoderunnerTaskInput) :
    Except CoderunnerErr StationResponse :=
  executeTaskMock adapterNow "implement" input

/-- Embeds `runVerifyTask` of the mock-mode adapter. -/
def runVerifyTaskMock (adapterNow : Int) (input : CoderunnerTaskInput) :
    Except CoderunnerErr StationResponse :=
  executeTaskMock adapterNow "verify" input

/-- An injected `CoderunnerAdapter` (the engine's test seam): phase, then
task input; a thrown `CoderunnerError` is the `Except.error` branch. -/
def Adapter := String → CoderunnerTaskInput → Except CoderunnerErr StationResponse

/-- The mock-mode adapter as an `Adapter` (what `createCoderunnerAdapterFromEnv`
yields under `CODERUNNER_MODE=mock`): `runImplementTask`/`runVerifyTask` both
dispatch through `executeTask`, whose mock branch never throws. -/
def mockAdapter (adapterNow : Int) : Adapter :=
  fun phase input => executeTaskMock adapterNow phase input

/-! ## apps/queue-consumer-worker: database model

Rows of the `runs`, `repos`, `station_executions` and `artifacts` tables as
read and written by the engine. -/

/-- A `runs` row (columns used by the engine). -/
structure RunRow where
  id : String
  repo_id : String
  issue_number : Int
  goal : Option String
  requestor : String
  base_branch : String
  pr_mode : String
  status : String
  current_station : Option String
  created_at : TimeStr
  started_at : Option TimeStr
  finished_at : Option TimeStr
  heartbeat_at : Option TimeStr
  failure_reason : Option String
deriving DecidableEq, Repr

/-- A `repos` row (columns used by the engine's context join). -/
structure RepoRow where
  id : String
  owner : String
  name : String
  default_branch : String
  config_path : String
  enabled : Bool
deriving DecidableEq, Repr

/-- A `station_executions` row. -/
structure StationRow where
  id : String
  run_id : String
  station : String
  status : String
  started_at : Option TimeStr
  finished_at : Option TimeStr
  duration_ms : Option Int
  summary : Option String
  external_ref : Option String
  metadata_json : Option StationMetadata
deriving DecidableEq, Repr

/-- Structured artifact payloads (the `JSON.stringify` argument of each
`INSERT INTO artifacts`). -/
inductive ArtifactPayload where
  | lightweightSummary (station outcome summary repo : String) (issueNumber : Int)
  | execSummary (station outcome summary : String) (externalRef : Option String)
      (metadata : Option StationMetadata)
  | logsExcerpt (station excerpt : String) (truncated : Bool) (originalLength : Int)
      (note : Option String)
  | workflowSummary (message : String) (stations : List String)
deriving DecidableEq, Repr

/-- An `artifacts` row. -/
structure ArtifactRow where
  id : String
  run_id : String
  type_ : String
  storage : String
  payload : ArtifactPayload
  created_at : TimeStr
deriving DecidableEq, Repr

/-- The D1 database state shared by the workers. -/
structure Db where
  repos : List RepoRow
  runs : List RunRow
  stations : List StationRow
  artifacts : List ArtifactRow
deriving DecidableEq, Repr

/-- Embeds `UPDATE runs SET ... WHERE pred` — rewrite matching rows, report
`meta.changes`. -/
def updateRunsWhere (db : Db) (pred : RunRow → Bool) (f : RunRow → RunRow) : Db × Nat :=
  ({ db with runs := db.runs.map (fun r => if pred r then f r else r) },
   db.runs.countP (fun r => pred r))

/-- Embeds `UPDATE station_executions SET ... WHERE pred`. -/
def updateStationsWhere (db : Db) (pred : StationRow → Bool) (f : StationRow → StationRow) :
    Db × Nat :=
  ({ db with stations := db.stations.map (fun r => if pred r then f r else r) },
   db.stations.countP (fun r => pred r))

/-- Embeds `SELECT ... FROM runs WHERE id = ? LIMIT 1`. -/
def findRun (db : Db) (runId : String) : Option RunRow :=
  db.runs.find? (fun r => r.id = runId)

/-- Embeds `SELECT ... FROM station_executions WHERE id = ? LIMIT 1`. -/
def findStationById (db : Db) (id : String) : Option StationRow :=
  db.stations.find? (fun r => r.id = id)

/-- Embeds `SELECT ... FROM artifacts WHERE id = ? LIMIT 1` (artifact ids are
deterministic, so this identifies the upsert target). -/
def findArtifactById (db : Db) (id : String) : Option ArtifactRow :=
  db.artifacts.find? (fun r => r.id = id)

/-! ## apps/queue-consumer-worker: engine store operations (final revision) -/

/-- Embeds `RUN_RESUME_STALE_MS`. -/
def RUN_RESUME_STALE_MS : Int := 30000

/-- Embeds `RUNNER_LOG_EXCERPT_LIMIT`. -/
def RUNNER_LOG_EXCERPT_LIMIT : Nat := 4000

/-- Embeds `STATION_SUMMARY_LIMIT`. -/
def STATION_SUMMARY_LIMIT : Nat := 500

/-- Embeds `truncateSummary` from `apps/queue-consumer-worker/src/index.ts`:
summaries over 500 characters are cut to 482 characters plus the 18-character
suffix `... [truncated]` (three dots, space, bracketed marker). -/
def truncateSummary (summary : String) : String :=
  if summary.length ≤ STATION_SUMMARY_LIMIT then summary
  else String.mk (summary.data.take (STATION_SUMMARY_LIMIT - 18)) ++ "... [truncated]"

/-- Embeds `stationExecutionId` from `apps/queue-consumer-worker/src/index.ts`. -/
def stationExecutionId (runId station : String) : String :=
  "station_" ++ runId ++ "_" ++ station

/-- The run projection consumed by `shouldResumeRunningRun` and the claim
CASes (`RunExecutionRow`). We reuse the full `RunRow`. -/
abbrev RunExecutionRow := RunRow

/-- Embeds `shouldResumeRunningRun` from `apps/queue-consumer-worker/src/index.ts`:
`run.heartbeat_at ?? run.started_at`; absent (or unparseable, `Date.parse`
giving `NaN`) timestamps make the run immediately stale; otherwise stale iff
`now - heartbeatAt ≥ RUN_RESUME_STALE_MS`. -/
def shouldResumeRunningRun (now : Int) (run : RunExecutionRow) : Bool :=
  if run.status ≠ "running" then false
  else
    match run.heartbeat_at.orElse (fun _ => run.started_at) with
    | none => true
    | some none => true
    | some (some heartbeatAt) => now - heartbeatAt ≥ RUN_RESUME_STALE_MS

/-- Embeds `claimQueuedRun`: the claim-queued CAS
(`status='running', started_at=COALESCE(started_at, now), current_station='intake',
heartbeat_at=now, failure_reason=NULL WHERE id=? AND status='queued'`). -/
def claimQueuedRun (now : Int) (db : Db) (runId : String) : Db × Bool :=
  let (db1, changes) := updateRunsWhere db
    (fun r => r.id = runId && r.status = "queued")
    (fun r =>
      { r with
        status := "running"
        started_at := some (r.started_at.getD (some now))
        current_station := some "intake"
        heartbeat_at := some (some now)
        failure_reason := none })
  (db1, changes = 1)

/-- Embeds `claimStaleRunningRun`: the claim-stale CAS keyed on the observed
heartbeat snapshot (three SQL shapes depending on which timestamps the
observed row carried). -/
def claimStaleRunningRun (now : Int) (db : Db) (run : RunExecutionRow) : Db × Bool :=
  match run.heartbeat_at with
  | some hb =>
    let (db1, changes) := updateRunsWhere db
      (fun r => r.id = run.id && r.status = "running" && r.heartbeat_at = some hb)
      (fun r => { r with heartbeat_at := some (some now) })
    (db1, changes = 1)
  | none =>
    match run.started_at with
    | some st =>
      let (db1, changes) := updateRunsWhere db
        (fun r => r.id = run.id && r.status = "running" && r.heartbeat_at = none &&
          r.started_at = some st)
        (fun r => { r with heartbeat_at := some (some now) })
      (db1, changes = 1)
    | none =>
      let (db1, changes) := updateRunsWhere db
        (fun r => r.id = run.id && r.status = "running" && r.heartbeat_at = none &&
          r.started_at = none)
        (fun r => { r with heartbeat_at := some (some now) })
      (db1, changes = 1)

/-- Embeds `getRunForExecution`. -/
def getRunForExecution (db : Db) (runId : String) : Option RunExecutionRow :=
  findRun db runId

/-- The joined `RunContextRow` of `getRunContextForExecution`. -/
structure RunContextRow where
  id : String
  repo_id : String
  issue_number : Int
  goal : Option String
  requestor : String
  base_branch : String
  pr_mode : String
  status : String
  current_station : Option String
  started_at : Option TimeStr
  heartbeat_at : Option TimeStr
  repo_owner : String
  repo_name : String
  config_path : String
deriving DecidableEq, Repr

/-- Embeds `getRunContextForExecution`: `runs INNER JOIN repos ON repos.id = runs.repo_id`. -/
def getRunContextForExecution (db : Db) (runId : String) : Option RunContextRow :=
  match findRun db runId with
  | none => none
  | some run =>
    match db.repos.find? (fun rp => rp.id = run.repo_id) with
    | none => none
    | some repo =>
      some
        { id := run.id
          repo_id := run.repo_id
          issue_number := run.issue_number
          goal := run.goal
          requestor := run.requestor
          base_branch := run.base_branch
          pr_mode := run.pr_mode
          status := run.status
          current_station := run.current_station
          started_at := run.started_at
          heartbeat_at := run.heartbeat_at
          repo_owner := repo.owner
          repo_name := repo.name
          config_path := repo.config_path }

/-- Embeds `getStationExecution`: lookup by deterministic station id. -/
def getStationExecution (db : Db) (runId station : String) : Option StationRow :=
  findStationById db (stationExecutionId runId station)

/-- Embeds `getStationExecutionStatus`. -/
def getStationExecutionStatus (db : Db) (runId station : String) : Option String :=
  (getStationExecution db runId station).map (·.status)

/-- Embeds `updateRunCurrentStation`
(`SET current_station=?, heartbeat_at=? WHERE id=? AND status='running'`);
changed-row count is tolerated and unread. -/
def updateRunCurrentStation (now : Int) (db : Db) (runId station : String) : Db :=
  (updateRunsWhere db (fun r => r.id = runId && r.status = "running")
    (fun r => { r with current_station := some station, heartbeat_at := some (some now) })).1

/-- Embeds `markStationRunning` (final revision): `INSERT ... ON CONFLICT(id) DO
UPDATE` with `started_at = COALESCE(station_executions.started_at,
excluded.started_at)`, `external_ref = COALESCE(excluded.external_ref,
station_executions.external_ref)`, `metadata_json =
COALESCE(excluded.metadata_json, station_executions.metadata_json)`; the
conflict update overwrites `status`, `finished_at`, `duration_ms` and
`summary` with the bound values (`'running'`, `NULL`, `NULL`, `NULL`)
unconditionally. -/
def markStationRunning (db : Db) (runId station : String) (startedAt : TimeStr)
    (externalRef : Option String) (metadataJson : Option StationMetadata) : Db :=
  let id := stationExecutionId runId station
  match findStationById db id with
  | some _ =>
    (updateStationsWhere db (fun r => r.id = id)
      (fun r =>
        { r with
          status := "running"
          started_at := some (r.started_at.getD startedAt)
          finished_at := none
          duration_ms := none
          summary := none
          external_ref := externalRef.orElse (fun _ => r.external_ref)
          metadata_json := metadataJson.orElse (fun _ => r.metadata_json) })).1
  | none =>
    { db with
      stations := db.stations ++
        [{ id := id
           run_id := runId
           station := station
           status := "running"
           started_at := some startedAt
           finished_at := none
           duration_ms := none
           summary := none
           external_ref := externalRef
           metadata_json := metadataJson }] }

/-- Embeds `persistStationExternalState`
(`SET external_ref=?, metadata_json=?, summary=? WHERE id=? AND status='running'`). -/
def persistStationExternalState (db : Db) (runId station : String) (externalRef : String)
    (metadata : Option StationMetadata) (summary : String) : Db :=
  (updateStationsWhere db
    (fun r => r.id = stationExecutionId runId station && r.status = "running")
    (fun r =>
      { r with
        external_ref := some externalRef
        metadata_json := metadata
        summary := some (truncateSummary summary) })).1

/-- Embeds `markStationSucceeded` (final revision): CAS `running → succeeded` with
`finished_at = now` and `duration_ms = Math.max(1, Date.now() - startedAtMs)`. -/
def markStationSucceeded (now : Int) (db : Db) (runId station : String) (startedAtMs : Int)
    (summary : String) (externalRef : Option String)
    (metadataJson : Option StationMetadata) : Db :=
  (updateStationsWhere db
    (fun r => r.id = stationExecutionId runId station && r.status = "running")
    (fun r =>
      { r with
        status := "succeeded"
        finished_at := some (some now)
        duration_ms := some (max 1 (now - startedAtMs))
        summary := some (truncateSummary summary)
        external_ref := externalRef
        metadata_json := metadataJson })).1

/-- Embeds `markStationFailed` (final revision): CAS `running → failed` with
`finished_at = now`, a truncated failure summary, and `COALESCE` preservation
of `external_ref`/`metadata_json`. Note: the UPDATE does not touch
`duration_ms`. -/
def markStationFailed (now : Int) (db : Db) (runId station : String) (reason : String)
    (externalRef : Option String) (metadataJson : Option StationMetadata) : Db :=
  (updateStationsWhere db
    (fun r => r.id = stationExecutionId runId station && r.status = "running")
    (fun r =>
      { r with
        status := "failed"
        finished_at := some (some now)
        summary := some (truncateSummary reason)
        external_ref := externalRef.orElse (fun _ => r.external_ref)
        metadata_json := metadataJson.orElse (fun _ => r.metadata_json) })).1

/-- Embeds `markRunSucceeded`: CAS `running → succeeded` on the run
(`finished_at=now, current_station=NULL, failure_reason=NULL, heartbeat_at=now`). -/
def markRunSucceeded (now : Int) (db : Db) (runId : String) : Db × Bool :=
  let (db1, changes) := updateRunsWhere db
    (fun r => r.id = runId && r.status = "running")
    (fun r =>
      { r with
        status := "succeeded"
        finished_at := some (some now)
        current_station := none
        failure_reason := none
        heartbeat_at := some (some now) })
  (db1, changes = 1)

/-- Embeds `markRunFailed` (final revision): CAS `running → failed` with truncated
failure reason. -/
def markRunFailed (now : Int) (db : Db) (runId station : String) (reason : String) :
    Db × Bool :=
  let (db1, changes) := updateRunsWhere db
    (fun r => r.id = runId && r.status = "running")
    (fun r =>
      { r with
        status := "failed"
        finished_at := some (some now)
        current_station := some station
        failure_reason := some (truncateSummary reason)
        heartbeat_at := some (some now) })
  (db1, changes = 1)

/-- Embeds `upsertArtifact` (final revision): deterministic id
`artifact_<runId>_<type>`, `ON CONFLICT(id) DO UPDATE SET payload, created_at`. -/
def upsertArtifact (now : Int) (db : Db) (runId type_ : String)
    (payload : ArtifactPayload) : Db :=
  let artifactId := "artifact_" ++ runId ++ "_" ++ type_
  match findArtifactById db artifactId with
  | some _ =>
    { db with
      artifacts := db.artifacts.map (fun a =>
        if a.id = artifactId then { a with payload := payload, created_at := some now } else a) }
  | none =>
    { db with
      artifacts := db.artifacts ++
        [{ id := artifactId
           run_id := runId
           type_ := type_
           storage := "inline"
           payload := payload
           created_at := some now }] }

/-! ## apps/queue-consumer-worker: station execution (final revision) -/

/-- Embeds `asStationName`: `null`, the empty string (falsy) and unknown names map
to `null`. -/
def asStationName (value : Option String) : Option String :=
  match value with
  | none => none
  | some v => if v = "" then none else STATION_NAMES.find? (fun s => s = v)

/-- Embeds `parseRunStatus`. -/
def parseRunStatus (status : String) : Option String :=
  if isRunStatus status then some status else none

/-- Embeds `parseStationStartAtMs`: missing row, `NULL` column or unparseable
string fall back to `Date.now()`. -/
def parseStationStartAtMs (now : Int) (stationExecution : Option StationRow) : Int :=
  match stationExecution with
  | none => now
  | some e =>
    match e.started_at with
    | none => now
    | some none => now
    | some (some parsed) => parsed

/-- The `{excerpt, truncated, originalLength}` record of `buildLogsExcerpt`. -/
structure LogsExcerptInfo where
  excerpt : String
  truncated : Bool
  originalLength : Int
deriving DecidableEq, Repr

/-- Embeds `buildLogsExcerpt` from `apps/queue-consumer-worker/src/index.ts`:
up to `RUNNER_LOG_EXCERPT_LIMIT` characters verbatim; beyond that, the
4000-character cut plus the newline-prefixed truncation note. -/
def buildLogsExcerpt (logsInline : String) : LogsExcerptInfo :=
  if logsInline.length ≤ RUNNER_LOG_EXCERPT_LIMIT then
    { excerpt := logsInline
      truncated := false
      originalLength := logsInline.length }
  else
    { excerpt := String.mk (logsInline.data.take RUNNER_LOG_EXCERPT_LIMIT) ++
        "\n[truncated to 4000 chars]"
      truncated := true
      originalLength := logsInline.length }

/-- Embeds `toCoderunnerTaskInput`: derive the adapter input from the run context
and the optional `{externalRef, metadataJson}` resume block; `pr_mode`
outside the enum falls back to `"draft"`, and resume metadata is re-validated
by `parseStationExecutionMetadataJson`. -/
def toCoderunnerTaskInput (run : RunContextRow)
    (resume : Option (String × Option StationMetadata)) : CoderunnerTaskInput :=
  let prMode := if isPrMode run.pr_mode then run.pr_mode else "draft"
  let resumeMetadata := parseStationExecutionMetadataJson (resume.bind (fun r => r.2))
  { runId := run.id
    issueNumber := run.issue_number
    goal := run.goal
    requestor := run.requestor
    prMode := prMode
    repo :=
      { id := run.repo_id
        owner := run.repo_owner
        name := run.repo_name
        baseBranch := run.base_branch
        configPath := run.config_path }
    resume := resume.map (fun r => { externalRef := r.1, metadata := resumeMetadata }) }

/-- Embeds `getResumeStationIndex`: resume at `currentStation`, or one past it when
that station already succeeded (clamped to the pipeline length). -/
def getResumeStationIndex (run : RunExecutionRow) (currentStationStatus : Option String) :
    Nat :=
  match asStationName run.current_station with
  | none => 0
  | some currentStation =>
    match STATION_NAMES.findIdx? (fun s => s = currentStation) with
    | none => 0
    | some currentIndex =>
      if currentStationStatus = some "succeeded" then
        min (currentIndex + 1) STATION_NAMES.length
      else currentIndex

/-- The resume block `executeImplementStation`/`executeVerifyStation` build:
present iff the existing station row carries a truthy (non-null, non-empty)
`external_ref`. -/
def resumeBlockOf (stationExecution : Option StationRow) :
    Option (String × Option StationMetadata) :=
  match stationExecution with
  | none => none
  | some e =>
    match e.external_ref with
    | none => none
    | some ref => if ref = "" then none else some (ref, e.metadata_json)

/-- Embeds `executeSkeletonStation`: the deterministic bodies of `intake`, `plan`
and `create_pr`. -/
def executeSkeletonStation (run : RunContextRow) (station : String) : StationResult :=
  if station = "intake" then
    { outcome := "succeeded"
      summary := "Intake captured " ++ run.repo_owner ++ "/" ++ run.repo_name ++ "#" ++
        toString run.issue_number
      logsInline := none
      externalRef := none
      metadata := none }
  else if station = "plan" then
    { outcome := "succeeded"
      summary :=
        match run.goal with
        | some goal => "Plan prepared for goal: " ++ goal
        | none => "Plan prepared for issue #" ++ toString run.issue_number
      logsInline := none
      externalRef := none
      metadata := none }
  else
    { outcome := "succeeded"
      summary := "create_pr placeholder remains until PR5"
      logsInline := none
      externalRef := none
      metadata := none }

/-- Embeds `persistLightweightStationArtifact`. -/
def persistLightweightStationArtifact (now : Int) (db : Db) (run : RunContextRow)
    (station : String) (result : StationResult) : Db :=
  upsertArtifact now db run.id (station ++ "_summary")
    (.lightweightSummary station result.outcome result.summary
      (run.repo_owner ++ "/" ++ run.repo_name) run.issue_number)

/-- Embeds `persistExecutionArtifacts`: always the `<phase>_summary` artifact, plus
the `<phase>_runner_logs_excerpt` artifact when `logsInline` is truthy and
non-empty. -/
def persistExecutionArtifacts (now : Int) (db : Db) (runId station : String)
    (result : StationResult) : Db :=
  let db1 := upsertArtifact now db runId (station ++ "_summary")
    (.execSummary station result.outcome result.summary result.externalRef result.metadata)
  match result.logsInline with
  | none => db1
  | some logs =>
    if logs.length > 0 then
      let excerpt := buildLogsExcerpt logs
      upsertArtifact now db1 runId (station ++ "_runner_logs_excerpt")
        (.logsExcerpt station excerpt.excerpt excerpt.truncated excerpt.originalLength
          (if excerpt.truncated then some "Log output truncated for inline artifact storage"
           else none))
    else db1

/-- A thrown `RetryableStationExecutionError` or `StationTerminalFailureError`
escaping `executeStation` (both carry the station). -/
inductive StationErr where
  | retryable (station message : String)
  | terminal (station message : String)
deriving DecidableEq, Repr

/-- A recorded invocation of the coderunner adapter. -/
structure AdapterCall where
  phase : String
  input : CoderunnerTaskInput
deriving DecidableEq, Repr

/-- The observable effect of one `executeStation` call: resulting store,
logged events, adapter calls, and the exception it (re)throws, if any. -/
structure ExecOut where
  db : Db
  logs : List String
  calls : List AdapterCall
  err : Option StationErr
deriving Repr

/-- The terminal CAS choice of `executeStation` (final revision, lines
1287–1306): `markStationSucceeded` on a `succeeded` outcome, otherwise
`markStationFailed` with the `<station> <outcome>: <summary>` reason
(`serializeMetadata` of the response metadata is the identity in the
structured-JSON model). -/
def markStationTerminal (now : Int) (db2 : Db) (run : RunContextRow) (station : String)
    (startedAtMs : Int) (executionResult : StationResult) : Db :=
  if executionResult.outcome = "succeeded" then
    markStationSucceeded now db2 run.id station startedAtMs executionResult.summary
      executionResult.externalRef executionResult.metadata
  else
    markStationFailed now db2 run.id station
      (station ++ " " ++ executionResult.outcome ++ ": " ++ executionResult.summary)
      executionResult.externalRef executionResult.metadata

/-- The artifact-persist conditional of `executeStation` (final revision,
lines 1308–1312): execution artifacts for `implement`/`verify`, the
lightweight summary otherwise. -/
def persistStationResultArtifacts (now : Int) (db3 : Db) (run : RunContextRow)
    (station : String) (executionResult : StationResult) : Db :=
  if station = "implement" || station = "verify" then
    persistExecutionArtifacts now db3 run.id station executionResult
  else
    persistLightweightStationArtifact now db3 run station executionResult

/-- The tail of `executeStation` (final revision) from the station body's
result on: persist non-terminal external state (raising the retryable
error), mark succeeded/failed and persist artifacts for terminal responses
(raising the terminal error on non-success), and classify thrown adapter
errors via `isRetryableCoderunnerError`. -/
def completeStationExecution (now : Int) (db2 : Db) (run : RunContextRow) (station : String)
    (existingStationExecution : Option StationRow) (startedAtMs : Int)
    (bodyResult : Except CoderunnerErr StationResponse) : Db × List String × Option StationErr :=
  match bodyResult with
  | .error error =>
    if isRetryableCoderunnerError error then
      (db2, ["station.started"],
       some (.retryable station
         ("Retryable station error at " ++ station ++ ": " ++ error.message)))
    else
      let stationError := "Station " ++ station ++ " execution error: " ++ error.message
      let db3 := markStationFailed now db2 run.id station stationError
        (existingStationExecution.bind (·.external_ref))
        (existingStationExecution.bind (·.metadata_json))
      (db3, ["station.started"], some (.terminal station stationError))
  | .ok (.inProgress summary externalRef metadata) =>
    let db3 := persistStationExternalState db2 run.id station externalRef metadata summary
    (db3, ["station.started"],
     some (.retryable station
       (station ++ " execution still running; external_ref=" ++ externalRef)))
  | .ok (.result executionResult) =>
    let db3 := markStationTerminal now db2 run station startedAtMs executionResult
    let db4 := persistStationResultArtifacts now db3 run station executionResult
    if executionResult.outcome ≠ "succeeded" then
      (db4, ["station.started"],
       some (.terminal station
         (station ++ " " ++ executionResult.outcome ++ ": " ++ executionResult.summary)))
    else
      (db4, ["station.started", "station.succeeded"], none)

/-- Embeds `executeStation` (final revision, lines 1228–1363): skip already-succeeded
stations; otherwise mark running (CASing `runs.current_station` along the
way), run the station body (adapter for `implement`/`verify`, deterministic
summary otherwise), then complete via `completeStationExecution`. The
heartbeat ticker (start/stop bracketing the body) only refreshes
`runs.heartbeat_at` and is elided. -/
def executeStation (now : Int) (adapter : Adapter) (db : Db) (run : RunContextRow)
    (station : String) : ExecOut :=
  let existingStationExecution := getStationExecution db run.id station
  if (existingStationExecution.map (·.status)) = some "succeeded" then
    { db := db, logs := ["station.skip.already_succeeded"], calls := [], err := none }
  else
    let startedAt : TimeStr :=
      match existingStationExecution with
      | some e => e.started_at.getD (some now)
      | none => some now
    let startedAtMs := parseStationStartAtMs now existingStationExecution
    let db1 := updateRunCurrentStation now db run.id station
    let db2 := markStationRunning db1 run.id station startedAt
      (existingStationExecution.bind (·.external_ref))
      (existingStationExecution.bind (·.metadata_json))
    let taskInput := toCoderunnerTaskInput run (resumeBlockOf existingStationExecution)
    let isExec := station = "implement" || station = "verify"
    let calls : List AdapterCall := if isExec then [{ phase := station, input := taskInput }] else []
    let bodyResult : Except CoderunnerErr StationResponse :=
      if station = "implement" then adapter "implement" taskInput
      else if station = "verify" then adapter "verify" taskInput
      else .ok (.result (executeSkeletonStation run station))
    let result :=
      completeStationExecution now db2 run station existingStationExecution startedAtMs bodyResult
    { db := result.1, logs := result.2.1, calls := calls, err := result.2.2 }

/-- An error escaping `runWorkflowSkeleton` into the queue handler. -/
inductive EngineErr where
  | retryable (station message : String)
  | terminal (station message : String)
  | generic (message : String)
deriving DecidableEq, Repr

/-- The station loop of `runWorkflowSkeleton`: each station in order, first
thrown error aborts the loop. -/
def runStationLoop (now : Int) (adapter : Adapter) (run : RunContextRow) :
    List String → Db → Db × List String × List AdapterCall × Option StationErr
  | [], db => (db, [], [], none)
  | station :: rest, db =>
    let out := executeStation now adapter db run station
    match out.err with
    | some e => (out.db, out.logs, out.calls, some e)
    | none =>
      let tail := runStationLoop now adapter run rest out.db
      (tail.1, out.logs ++ tail.2.1, out.calls ++ tail.2.2.1, tail.2.2.2)

/-- Embeds `runWorkflowSkeleton` (final revision, lines 1365–1387): load the joined
run context (missing context throws a plain `Error`), clamp the start index,
execute the remaining stations, then CAS-finalize the run to `succeeded`
(`run.succeeded.noop` when the CAS changed no row). No artifact is written on
the finalize path in this revision. -/
def runWorkflowSkeleton (now : Int) (adapter : Adapter) (db : Db) (runId : String)
    (startStationIndex : Nat) : Db × List String × List AdapterCall × Option EngineErr :=
  match getRunContextForExecution db runId with
  | none => (db, [], [], some (.generic ("Run context missing for " ++ runId)))
  | some run =>
    let normalizedStart := min startStationIndex STATION_NAMES.length
    let loopOut := runStationLoop now adapter run (STATION_NAMES.drop normalizedStart) db
    let db1 := loopOut.1
    let lg := loopOut.2.1
    let cs := loopOut.2.2.1
    match loopOut.2.2.2 with
    | some (.retryable s m) => (db1, lg, cs, some (.retryable s m))
    | some (.terminal s m) => (db1, lg, cs, some (.terminal s m))
    | none =>
      let finalize := markRunSucceeded now db1 runId
      if finalize.2 then (finalize.1, lg ++ ["run.succeeded"], cs, none)
      else (finalize.1, lg ++ ["run.succeeded.noop"], cs, none)

/-- The queue disposition of a processed message. -/
inductive QueueAction where
  | ack
  | retry
deriving DecidableEq, Repr

/-- A delivered queue message: id and untyped body. -/
structure QMsg where
  id : String
  body : JsVal
deriving Repr

/-- The observable effect of one `processQueueMessage` delivery. -/
structure StepOut where
  db : Db
  action : QueueAction
  logs : List String
  calls : List AdapterCall
deriving Repr

/-- Embeds `handleTerminalRunFailure`: best-effort `markRunFailed` CAS; `ack` when
it changed a row or when the run is gone or already terminal, `retry`
otherwise. -/
def handleTerminalRunFailure (now : Int) (db : Db) (runId station reason : String) :
    Db × QueueAction :=
  let marked := markRunFailed now db runId station reason
  let db1 := marked.1
  if marked.2 then (db1, .ack)
  else
    match getRunForExecution db1 runId with
    | none => (db1, .ack)
    | some latestRun =>
      match parseRunStatus latestRun.status with
      | some latestStatus =>
        if isTerminalRunStatus latestStatus then (db1, .ack) else (db1, .retry)
      | none => (db1, .retry)

/-- The `try { runWorkflowSkeleton(...); message.ack() } catch` tail of
`processQueueMessage`: a retryable station error retries the message, a
terminal one goes through `handleTerminalRunFailure`, and any other error is
treated as terminal at `currentStation ?? intake`. -/
def runClaimedWorkflow (now : Int) (adapter : Adapter) (db : Db) (runId : String)
    (startStationIndex : Nat) (claimLogs : List String) : StepOut :=
  let wf := runWorkflowSkeleton now adapter db runId startStationIndex
  let db2 := wf.1
  let lg := wf.2.1
  let cs := wf.2.2.1
  match wf.2.2.2 with
  | none => { db := db2, action := .ack, logs := claimLogs ++ lg, calls := cs }
  | some (.retryable _ _) =>
    { db := db2, action := .retry,
      logs := claimLogs ++ lg ++ ["run.retry.station_in_progress"], calls := cs }
  | some (.terminal station reason) =>
    let failed := handleTerminalRunFailure now db2 runId station reason
    { db := failed.1, action := failed.2,
      logs := claimLogs ++ lg ++ ["run.failed.station_terminal"], calls := cs }
  | some (.generic m) =>
    let reason := "Workflow execution error: " ++ m
    let latestRun := getRunForExecution db2 runId
    let failureStation :=
      (asStationName (latestRun.bind (·.current_station))).getD "intake"
    let failed := handleTerminalRunFailure now db2 runId failureStation reason
    { db := failed.1, action := failed.2,
      logs := claimLogs ++ lg ++ ["run.failed.unexpected"], calls := cs }

/-- Embeds `processQueueMessage` (final revision, lines 1422–1565): validate the
body, load the run, drop terminal/invalid runs, claim (queued CAS or
stale-running CAS with resume-index computation), run the workflow, and
translate thrown errors into `ack`/`retry`. -/
def processQueueMessage (now : Int) (adapter : Adapter) (db : Db) (message : QMsg) :
    StepOut :=
  if !(isRunQueueMessage message.body) then
    { db := db, action := .ack, logs := ["queue.message.invalid"], calls := [] }
  else
    let payload := toRunQueueMessage message.body
    match getRunForExecution db payload.runId with
    | none => { db := db, action := .ack, logs := ["run.missing"], calls := [] }
    | some run =>
      match parseRunStatus run.status with
      | none => { db := db, action := .ack, logs := ["run.skip.invalid_status"], calls := [] }
      | some runStatus =>
        if isTerminalRunStatus runStatus then
          { db := db, action := .ack, logs := ["run.skip.terminal"], calls := [] }
        else if runStatus = "queued" then
          let claim := claimQueuedRun now db payload.runId
          let db1 := claim.1
          if !claim.2 then
            let latestRun := getRunForExecution db1 payload.runId
            let latestStatus := latestRun.bind (fun r => parseRunStatus r.status)
            match latestStatus with
            | some s =>
              if isTerminalRunStatus s then
                { db := db1, action := .ack, logs := ["run.claim.contended.terminal"],
                  calls := [] }
              else
                { db := db1, action := .retry, logs := ["run.claim.contended.retry"],
                  calls := [] }
            | none =>
              { db := db1, action := .retry, logs := ["run.claim.contended.retry"],
                calls := [] }
          else
            runClaimedWorkflow now adapter db1 run.id 0 ["run.claimed"]
        else if runStatus = "running" then
          if !(shouldResumeRunningRun now run) then
            { db := db, action := .retry, logs := ["run.defer.running"], calls := [] }
          else
            let resume := claimStaleRunningRun now db run
            let db1 := resume.1
            if !resume.2 then
              { db := db1, action := .retry, logs := ["run.resume.claim_contended"],
                calls := [] }
            else
              let startStationIndex :=
                match asStationName run.current_station with
                | some currentStation =>
                  getResumeStationIndex run
                    (getStationExecutionStatus db1 payload.runId currentStation)
                | none => 0
              runClaimedWorkflow now adapter db1 run.id startStationIndex
                ["run.resume.stale_running"]
        else
          { db := db, action := .ack, logs := ["run.skip.unexpected_status"], calls := [] }

/-- Embeds `handleQueue` over a batch delivered at per-message times: sequential
`processQueueMessage`, accumulating adapter calls. -/
def processMessages (adapter : Adapter) : List (Int × QMsg) → Db → Db × List AdapterCall
  | [], db => (db, [])
  | (now, m) :: rest, db =>
    let out := processQueueMessage now adapter db m
    let tail := processMessages adapter rest out.db
    (tail.1, out.calls ++ tail.2)

/-! ## apps/queue-consumer-worker: PR2 workflow-skeleton revision

The worker file also ships its earlier PR2 revision (lines 30–580), whose
stations are pure placeholders and whose finalize path writes the
`workflow_summary` completion artifact. Only the parts that differ from the
final revision are embedded here. -/

namespace PR2

/-- Embeds `markStationSucceeded` (PR2 revision, lines 237–258): fixed summary,
`WHERE id = ?` with no status predicate. -/
def markStationSucceeded (now : Int) (db : Db) (runId station : String)
    (startedAtMs : Int) : Db :=
  (updateStationsWhere db (fun r => r.id = stationExecutionId runId station)
    (fun r =>
      { r with
        status := "succeeded"
        finished_at := some (some now)
        duration_ms := some (max 1 (now - startedAtMs))
        summary := some (station ++ " completed via workflow skeleton") })).1

/-- Embeds `markStationRunning` (PR2 revision, lines 207–235): eight-column upsert
whose conflict clause overwrites every column with the excluded values. -/
def markStationRunning (db : Db) (runId station : String) (startedAt : TimeStr) : Db :=
  let id := stationExecutionId runId station
  let fresh : StationRow :=
    { id := id
      run_id := runId
      station := station
      status := "running"
      started_at := some startedAt
      finished_at := none
      duration_ms := none
      summary := none
      external_ref := none
      metadata_json := none }
  match findStationById db id with
  | some _ =>
    (updateStationsWhere db (fun r => r.id = id)
      (fun r =>
        { r with
          status := "running"
          started_at := some startedAt
          finished_at := none
          duration_ms := none
          summary := none })).1
  | none => { db with stations := db.stations ++ [fresh] }

/-- Embeds `createCompletionArtifact` (PR2 revision, lines 289–308): insert the
`workflow_summary` artifact with `ON CONFLICT(id) DO NOTHING`. -/
def createCompletionArtifact (now : Int) (db : Db) (runId : String) : Db :=
  let artifactId := "artifact_" ++ runId ++ "_workflow_summary"
  match findArtifactById db artifactId with
  | some _ => db
  | none =>
    { db with
      artifacts := db.artifacts ++
        [{ id := artifactId
           run_id := runId
           type_ := "workflow_summary"
           storage := "inline"
           payload := .workflowSummary "Workflow skeleton completed successfully" STATION_NAMES
           created_at := some now }] }

/-- Embeds `executeStation` (PR2 revision, lines 310–331): mark running, then mark
succeeded; always returns `{ ok: true }`. The heartbeat ticker is elided. -/
def executeStation (now : Int) (db : Db) (runId station : String) : Db :=
  let db1 := updateRunCurrentStation now db runId station
  let db2 := markStationRunning db1 runId station (some now)
  markStationSucceeded now db2 runId station now

/-- Embeds `runWorkflowSkeleton` (PR2 revision, lines 333–365): drive every station
(each unconditionally ok), CAS-finalize the run, and on finalize success try
`createCompletionArtifact`, catching and logging any artifact-write error
(`artifactWriteFails` models the thrown D1 error; the `catch` keeps the
finalized state). Returns the final store and logged events. -/
def runWorkflowSkeleton (now : Int) (db : Db) (runId : String)
    (artifactWriteFails : Bool) : Db × List String :=
  let dbStations := STATION_NAMES.foldl (fun acc station => executeStation now acc runId station) db
  let finalize := markRunSucceeded now dbStations runId
  let db1 := finalize.1
  if !finalize.2 then (db1, ["run.succeeded.noop"])
  else if artifactWriteFails then (db1, ["run.succeeded.artifact_error", "run.succeeded"])
  else (createCompletionArtifact now db1 runId, ["run.succeeded"])

end PR2

/-! ## apps/control-worker: submission and idempotency -/

namespace Control

/-- A `run_idempotency_keys` row. -/
structure IdempotencyRow where
  key : String
  request_hash : String
  run_id : String
  status : String
  created_at : TimeStr
  updated_at : TimeStr
deriving DecidableEq, Repr

/-- Control-worker state: the shared D1 database, the idempotency-claims
table, and the run queue (a `RUN_QUEUE.send` appends a message). -/
structure CtrlState where
  db : Db
  claims : List IdempotencyRow
  queue : List RunQueueMessage
deriving Repr

/-- A validated `create_run` body (`CreateRunInput`), output of
`validateCreateRunInput`; owner/name arrive normalized (trimmed, lowercased),
`goal` trimmed and non-empty when present, `issueNumber > 0`. -/
structure CreateRunInput where
  repoOwner : String
  repoName : String
  issueNumber : Int
  goal : Option String
  requestor : String
  prMode : String
deriving DecidableEq, Repr

/-- An HTTP response, reduced to its status code (bodies are serializations
of state already captured by `CtrlState`). -/
structure HttpResp where
  status : Nat
deriving DecidableEq, Repr

/-- Embeds `QUEUE_FAILURE_REASON`. -/
def QUEUE_FAILURE_REASON : String := "queue_publish_failed"

/-- Embeds `String.prototype.trim` (whitespace stripping on both ends), defined
structurally on the character list. -/
def strTrim (s : String) : String :=
  String.mk (((s.data.dropWhile Char.isWhitespace).reverse.dropWhile
    Char.isWhitespace).reverse)

/-- Embeds `canonicalRunRequestPayload`: `JSON.stringify` of the six-field canonical
object, in key order (string escaping of field contents is elided). -/
def canonicalRunRequestPayload (input : CreateRunInput) : String :=
  let quote := fun (s : String) => "\"" ++ s ++ "\""
  "\x7b\"repoOwner\":" ++ quote input.repoOwner ++
  ",\"repoName\":" ++ quote input.repoName ++
  ",\"issueNumber\":" ++ toString input.issueNumber ++
  ",\"goal\":" ++ (match input.goal with | some g => quote g | none => "null") ++
  ",\"requestor\":" ++ quote input.requestor ++
  ",\"prMode\":" ++ quote input.prMode ++ "\x7d"

/-- Embeds `getIdempotencyRow` (`WHERE key = ? LIMIT 1`). -/
def getIdempotencyRow (s : CtrlState) (key : String) : Option IdempotencyRow :=
  s.claims.find? (fun c => c.key = key)

/-- Embeds `getRepoByOwnerName`. -/
def getRepoByOwnerName (s : CtrlState) (owner name : String) : Option RepoRow :=
  s.db.repos.find? (fun r => r.owner = owner && r.name = name)

/-- Embeds `getRunById`: `runs INNER JOIN repos` — `null` when the run or its repo
row is missing (the joined repo columns only feed serialization). -/
def getRunById (s : CtrlState) (runId : String) : Option RunRow :=
  match findRun s.db runId with
  | none => none
  | some run =>
    match s.db.repos.find? (fun rp => rp.id = run.repo_id) with
    | none => none
    | some _ => some run

/-- Embeds `setRunQueueFailureMarker` (`SET failure_reason = 'queue_publish_failed'
WHERE id = ?`). -/
def setRunQueueFailureMarker (s : CtrlState) (runId : String) : CtrlState :=
  { s with db := (updateRunsWhere s.db (fun r => r.id = runId)
      (fun r => { r with failure_reason := some QUEUE_FAILURE_REASON })).1 }

/-- Embeds `clearRunQueueFailureMarker`. -/
def clearRunQueueFailureMarker (s : CtrlState) (runId : String) : CtrlState :=
  { s with db := (updateRunsWhere s.db (fun r => r.id = runId)
      (fun r => { r with failure_reason := none })).1 }

/-- Embeds `deleteRun` (`DELETE FROM runs WHERE id = ?`). -/
def deleteRun (s : CtrlState) (runId : String) : CtrlState :=
  { s with db := { s.db with runs := s.db.runs.filter (fun r => r.id ≠ runId) } }

/-- Embeds `claimIdempotencyKey`: plain INSERT; a `UNIQUE constraint failed` on the
key returns `false`. -/
def claimIdempotencyKey (now : Int) (s : CtrlState) (key requestHash runId : String) :
    CtrlState × Bool :=
  match getIdempotencyRow s key with
  | some _ => (s, false)
  | none =>
    ({ s with
       claims := s.claims ++
         [{ key := key
            request_hash := requestHash
            run_id := runId
            status := "pending"
            created_at := some now
            updated_at := some now }] }, true)

/-- Embeds `setIdempotencyStatus`: CAS `pending → status` keyed on
`key AND status='pending'`. -/
def setIdempotencyStatus (now : Int) (s : CtrlState) (key status : String) :
    CtrlState × Bool :=
  let changed := s.claims.countP (fun c => c.key = key && c.status = "pending")
  ({ s with
     claims := s.claims.map (fun c =>
       if c.key = key && c.status = "pending" then
         { c with status := status, updated_at := some now }
       else c) }, changed = 1)

/-- Embeds `claimRequeueRetry`: from `failed`, CAS back to `pending`; from
`pending`, optimistic CAS on the observed `updated_at`; otherwise `false`. -/
def claimRequeueRetry (now : Int) (s : CtrlState) (idempotency : IdempotencyRow) :
    CtrlState × Bool :=
  if idempotency.status = "failed" then
    let changed := s.claims.countP (fun c => c.key = idempotency.key && c.status = "failed")
    ({ s with
       claims := s.claims.map (fun c =>
         if c.key = idempotency.key && c.status = "failed" then
           { c with status := "pending", updated_at := some now }
         else c) }, changed = 1)
  else if idempotency.status = "pending" then
    let changed := s.claims.countP (fun c =>
      c.key = idempotency.key && c.status = "pending" && c.updated_at = idempotency.updated_at)
    ({ s with
       claims := s.claims.map (fun c =>
         if c.key = idempotency.key && c.status = "pending" &&
            c.updated_at = idempotency.updated_at then
           { c with updated_at := some now }
         else c) }, changed = 1)
  else (s, false)

/-- Embeds `buildQueueMessage` + `enqueueRun`: append the run's queue message
(`requestedAt` carries `created_at` in the clock model; unparseable
timestamps serialize as an empty marker). -/
def enqueueRun (s : CtrlState) (run : RunRow) : CtrlState :=
  { s with
    queue := s.queue ++
      [{ runId := run.id
         repoId := run.repo_id
         issueNumber := run.issue_number
         requestedAt := match run.created_at with
                        | some t => toString t
                        | none => ""
         prMode := run.pr_mode
         requestor := run.requestor }] }

/-- Embeds `shouldRetryQueuePublish`: only a still-`queued` run is requeue-eligible;
with the explicit `queue_publish_failed` marker a `failed` or `pending` claim
may retry, without it only a `failed` claim may (pending-without-marker is
deliberately ambiguous and never re-enqueued). -/
def shouldRetryQueuePublish (existingKey : IdempotencyRow) (run : RunRow) : Bool :=
  if run.status ≠ "queued" then false
  else if run.failure_reason = some QUEUE_FAILURE_REASON then
    existingKey.status = "failed" || existingKey.status = "pending"
  else existingKey.status = "failed"

/-- Embeds `buildReplayStateResponse`: re-read claim and run; 200 when the claim is
`succeeded`, else 202 (500 when either vanished). -/
def buildReplayStateResponse (s : CtrlState) (key runId : String) : CtrlState × HttpResp :=
  match getIdempotencyRow s key, getRunById s runId with
  | some latestKey, some _ =>
    (s, { status := if latestKey.status = "succeeded" then 200 else 202 })
  | _, _ => (s, { status := 500 })

/-- Embeds `buildEnqueueFailureResponse`: best-effort failure marker on the run,
best-effort CAS of the claim to `failed`, then 503 with the serialized state. -/
def buildEnqueueFailureResponse (now : Int) (s : CtrlState) (runId key : String) :
    CtrlState × HttpResp :=
  let s1 := setRunQueueFailureMarker s runId
  let (s2, _) := setIdempotencyStatus now s1 key "failed"
  (s2, { status := 503 })

/-- Embeds `replayExistingRun` (lines 842–923): conflicting hash → 409 with no
writes; otherwise replay, with the requeue-claim CAS path when
`shouldRetryQueuePublish` holds. `enqueueOk` models whether
`RUN_QUEUE.send` succeeds. -/
def replayExistingRun (now : Int) (enqueueOk : Bool) (s : CtrlState)
    (key requestHash : String) : CtrlState × HttpResp :=
  match getIdempotencyRow s key with
  | none => (s, { status := 500 })
  | some existingKey =>
    if existingKey.request_hash ≠ requestHash then (s, { status := 409 })
    else
      match getRunById s existingKey.run_id with
      | none => (s, { status := 500 })
      | some run =>
        if shouldRetryQueuePublish existingKey run then
          let (s1, claimed) := claimRequeueRetry now s existingKey
          if !claimed then buildReplayStateResponse s1 key run.id
          else if !enqueueOk then
            buildEnqueueFailureResponse now s1 run.id key
          else
            let s2 := enqueueRun s1 run
            let (s3, _) := setIdempotencyStatus now s2 key "succeeded"
            let s4 := clearRunQueueFailureMarker s3 run.id
            match getRunById s4 run.id with
            | none => (s4, { status := 500 })
            | some _ => (s4, { status := 202 })
        else
          (s, { status := if existingKey.status = "succeeded" then 200 else 202 })

/-- The `INSERT INTO runs` of `handleCreateRun` (fifteen columns; status
`queued`, `base_branch` from the repo's default branch, null timestamps). -/
def insertRun (now : Int) (s : CtrlState) (runId : String) (repo : RepoRow)
    (input : CreateRunInput) : CtrlState :=
  { s with
    db := { s.db with
      runs := s.db.runs ++
        [{ id := runId
           repo_id := repo.id
           issue_number := input.issueNumber
           goal := input.goal
           requestor := input.requestor
           base_branch := repo.default_branch
           pr_mode := input.prMode
           status := "queued"
           current_station := none
           created_at := some now
           started_at := none
           finished_at := none
           heartbeat_at := none
           failure_reason := none }] } }

/-- Embeds `handleCreateRun` (lines 963–1117), from the point where the JSON body
has been validated into a `CreateRunInput`: require a non-empty trimmed
`Idempotency-Key`, hash the canonical payload with `sha` (the SHA-256
oracle), replay on an existing claim, otherwise insert the run (id
`run_<uuid>`), claim the key (replaying after cleanup on a lost race),
enqueue, and promote the claim. -/
def handleCreateRun (now : Int) (uuid : String) (sha : String → String)
    (enqueueOk : Bool) (s : CtrlState) (idempotencyKeyHeader : Option String)
    (input : CreateRunInput) : CtrlState × HttpResp :=
  match idempotencyKeyHeader.map strTrim with
  | none => (s, { status := 400 })
  | some idempotencyKey =>
    if idempotencyKey = "" then (s, { status := 400 })
    else
      let requestHash := sha (canonicalRunRequestPayload input)
      match getIdempotencyRow s idempotencyKey with
      | some _ => replayExistingRun now enqueueOk s idempotencyKey requestHash
      | none =>
        match getRepoByOwnerName s input.repoOwner input.repoName with
        | none => (s, { status := 400 })
        | some repo =>
          if !repo.enabled then (s, { status := 400 })
          else
            let runId := "run_" ++ uuid
            let s1 := insertRun now s runId repo input
            match getRunById s1 runId with
            | none => (s1, { status := 500 })
            | some run =>
              let (s2, claimed) := claimIdempotencyKey now s1 idempotencyKey requestHash runId
              if !claimed then
                let s3 := deleteRun s2 runId
                replayExistingRun now enqueueOk s3 idempotencyKey requestHash
              else if !enqueueOk then
                buildEnqueueFailureResponse now s2 runId idempotencyKey
              else
                let s3 := enqueueRun s2 run
                let (s4, _) := setIdempotencyStatus now s3 idempotencyKey "succeeded"
                (s4, { status := 202 })

end Control

/-! ## Concrete fixtures

A minimal well-formed store (one allowlisted repo, one run) and the message
bodies used by the witnesses and counterexamples. -/

/-- The allowlisted repo row. -/
def exRepo : RepoRow :=
  { id := "repo_1"
    owner := "sociotechnica-org"
    name := "lifebuild"
    default_branch := "main"
    config_path := ".bob/factory.yaml"
    enabled := true }

/-- A freshly submitted run in `queued`. -/
def exRun : RunRow :=
  { id := "run_1"
    repo_id := "repo_1"
    issue_number := 7
    goal := none
    requestor := "jess"
    base_branch := "main"
    pr_mode := "draft"
    status := "queued"
    current_station := none
    created_at := some 0
    started_at := none
    finished_at := none
    heartbeat_at := none
    failure_reason := none }

/-- The store right after submission. -/
def exDb : Db := { repos := [exRepo], runs := [exRun], stations := [], artifacts := [] }

/-- The well-formed queue message body for `exRun`. -/
def exBody : JsVal :=
  .vobj [("runId", .vstr "run_1"), ("repoId", .vstr "repo_1"), ("issueNumber", .vnumInt 7),
         ("requestedAt", .vstr "2026-02-10T00:00:00.000Z"), ("prMode", .vstr "draft"),
         ("requestor", .vstr "jess")]

/-- The same body with `issueNumber = 0` (type-correct, not positive). -/
def exBodyZeroIssue : JsVal :=
  .vobj [("runId", .vstr "run_1"), ("repoId", .vstr "repo_1"), ("issueNumber", .vnumInt 0),
         ("requestedAt", .vstr "2026-02-10T00:00:00.000Z"), ("prMode", .vstr "draft"),
         ("requestor", .vstr "jess")]

/-- A body whose `issueNumber` is a string — rejected by the guard. -/
def exBodyBadType : JsVal :=
  .vobj [("runId", .vstr "run_1"), ("repoId", .vstr "repo_1"), ("issueNumber", .vstr "7"),
         ("requestedAt", .vstr "2026-02-10T00:00:00.000Z"), ("prMode", .vstr "draft"),
         ("requestor", .vstr "jess")]

/-- One full mock-mode delivery against `exDb`. -/
def exOut : StepOut :=
  processQueueMessage 1000 (mockAdapter 1000) exDb { id := "m1", body := exBody }

/-- One delivery of the `issueNumber = 0` message against `exDb`. -/
def exOutZeroIssue : StepOut :=
  processQueueMessage 1000 (mockAdapter 1000) exDb { id := "m2", body := exBodyZeroIssue }

/-- A `running` implement station row. -/
def exRunningStation : StationRow :=
  { id := stationExecutionId "run_1" "implement"
    run_id := "run_1"
    station := "implement"
    status := "running"
    started_at := some (some 0)
    finished_at := none
    duration_ms := none
    summary := none
    external_ref := none
    metadata_json := none }

/-- The same station row after a terminal failure. -/
def exFailedStation : StationRow :=
  { exRunningStation with status := "failed", finished_at := some (some 100) }

/-- A succeeded intake station row. -/
def exSucceededIntake : StationRow :=
  { id := stationExecutionId "run_1" "intake"
    run_id := "run_1"
    station := "intake"
    status := "succeeded"
    started_at := some (some 0)
    finished_at := some (some 10)
    duration_ms := some 10
    summary := some "intake done"
    external_ref := none
    metadata_json := none }

/-- The task input of the adapter test fixture with the `[verify-fail]`
marker in the goal (`keeps verify-specific failure markers scoped to verify
phase` in `packages/adapters-coderunner/test/adapter.test`). -/
def exVerifyFailInput : CoderunnerTaskInput :=
  { runId := "run_1"
    issueNumber := 101
    goal := some "[verify-fail] only verify should fail"
    requestor := "jess"
    prMode := "draft"
    repo :=
      { id := "repo_1"
        owner := "sociotechnica-org"
        name := "lifebuild"
        baseBranch := "main"
        configPath := ".bob/factory.yaml" }
    resume := none }

/-- An idempotency claim promoted to `succeeded` with request hash `h1`. -/
def exClaim : Control.IdempotencyRow :=
  { key := "k1"
    request_hash := "h1"
    run_id := "run_1"
    status := "succeeded"
    created_at := some 0
    updated_at := some 0 }

/-- Control-plane state holding `exClaim`. -/
def exCtrlState : Control.CtrlState := { db := exDb, claims := [exClaim], queue := [] }

/-- A validated submission whose canonical payload hashes differently from
`exClaim.request_hash` under the identity-tagged hash oracle. -/
def exCreateRunInput : Control.CreateRunInput :=
  { repoOwner := "sociotechnica-org"
    repoName := "lifebuild"
    issueNumber := 8
    goal := none
    requestor := "jess"
    prMode := "draft" }

/-- A `running` run whose heartbeat is older than its start timestamp. -/
def exStaleHeartbeatRun : RunRow :=
  { exRun with
    status := "running"
    started_at := some (some 25000)
    heartbeat_at := some (some 0) }

/-- A `running` run with a fresh heartbeat (1 s old at `now = 35000`). -/
def exFreshRunningRun : RunRow :=
  { exRun with
    status := "running"
    started_at := some (some 30000)
    heartbeat_at := some (some 34000) }

/-- Embeds `exDb` for the freshly heartbeating run. -/
def exDbFreshRunning : Db := { exDb with runs := [exFreshRunningRun] }

/-- Embeds `exRun` after the claim-queued CAS (status `running`). -/
def exClaimedRun : RunRow :=
  { exRun with
    status := "running"
    current_station := some "intake"
    started_at := some (some 500)
    heartbeat_at := some (some 500) }

/-- Embeds `exDb` with the run claimed. -/
def exDbClaimedRun : Db := { exDb with runs := [exClaimedRun] }

/-- Embeds `exDb` with the implement station mid-flight. -/
def exDbRunningStation : Db := { exDb with stations := [exRunningStation] }

/-- Embeds `exDb` with the implement station terminally failed. -/
def exDbFailedStation : Db := { exDb with stations := [exFailedStation] }

/-- Embeds `exDb` with the intake station already succeeded. -/
def exDbSucceededIntake : Db := { exDb with stations := [exSucceededIntake] }

/-- The joined run context of `exRun` (as `getRunContextForExecution`
produces for the claimed run). -/
def exRunContext : RunContextRow :=
  { id := "run_1"
    repo_id := "repo_1"
    issue_number := 7
    goal := none
    requestor := "jess"
    base_branch := "main"
    pr_mode := "draft"
    status := "running"
    current_station := some "intake"
    started_at := some (some 1000)
    heartbeat_at := some (some 1000)
    repo_owner := "sociotechnica-org"
    repo_name := "lifebuild"
    config_path := ".bob/factory.yaml" }

/-- A terminal implement result with a short inline log. -/
def exLogsResult : StationResult :=
  { outcome := "succeeded"
    summary := "Implemented issue #7"
    logsInline := some "abc"
    externalRef := some "job_1"
    metadata := none }

/-! ## Helper lemmas -/

/-- Embeds `find?` over a map by a function that preserves the predicate's verdict. -/
theorem find_map_pred {α : Type} (p : α → Bool) (g : α → α) (hp : ∀ r, p (g r) = p r) :
    ∀ l : List α, (l.map g).find? p = (l.find? p).map g := by
  intro l
  induction l with
  | nil => rfl
  | cons a t ih =>
    cases h : p a with
    | true =>
      have hga : p (g a) = true := by rw [hp]; exact h
      simp [List.find?_cons_of_pos _ h, List.find?_cons_of_pos _ hga]
    | false =>
      have hga : p (g a) = false := by rw [hp]; exact h
      rw [List.map_cons, List.find?_cons_of_neg _ (by simp [hga]),
        List.find?_cons_of_neg _ (by simp [h]), ih]

/-- Embeds `countP` over a map by a verdict-preserving function. -/
theorem countP_map_pred {α : Type} (p : α → Bool) (g : α → α) (hp : ∀ r, p (g r) = p r)
    (l : List α) : (l.map g).countP p = l.countP p := by
  rw [List.countP_map]
  exact List.countP_congr (fun a _ => by rw [Function.comp_apply, hp])

/-- Projections of the table-scoped writes: a runs UPDATE does not touch
stations or artifacts or repos. -/
theorem updateRunsWhere_stations (db : Db) (p : RunRow → Bool) (f : RunRow → RunRow) :
    ((updateRunsWhere db p f).1).stations = db.stations := rfl

theorem updateRunsWhere_artifacts (db : Db) (p : RunRow → Bool) (f : RunRow → RunRow) :
    ((updateRunsWhere db p f).1).artifacts = db.artifacts := rfl

theorem updateRunsWhere_repos (db : Db) (p : RunRow → Bool) (f : RunRow → RunRow) :
    ((updateRunsWhere db p f).1).repos = db.repos := rfl

theorem updateStationsWhere_runs (db : Db) (p : StationRow → Bool) (f : StationRow → StationRow) :
    ((updateStationsWhere db p f).1).runs = db.runs := rfl

theorem upsertArtifact_stations (now : Int) (db : Db) (runId type_ : String)
    (payload : ArtifactPayload) : (upsertArtifact now db runId type_ payload).stations =
      db.stations := by
  dsimp only [upsertArtifact]
  split <;> rfl

theorem upsertArtifact_runs (now : Int) (db : Db) (runId type_ : String)
    (payload : ArtifactPayload) : (upsertArtifact now db runId type_ payload).runs = db.runs := by
  dsimp only [upsertArtifact]
  split <;> rfl

/-- A station lookup is untouched by a stations UPDATE whose predicate
rejects the looked-up row (the map function must preserve ids). -/
theorem getStationExecution_updateStationsWhere_frozen (db : Db) (p : StationRow → Bool)
    (f : StationRow → StationRow) (hid : ∀ r, (f r).id = r.id) (rid st : String)
    (row : StationRow) (h : getStationExecution db rid st = some row)
    (hrow : p row = false) :
    getStationExecution ((updateStationsWhere db p f).1) rid st = some row := by
  unfold getStationExecution findStationById at h
  unfold getStationExecution findStationById updateStationsWhere
  dsimp only
  rw [find_map_pred (fun (r : StationRow) => r.id = stationExecutionId rid st)
    (fun (r : StationRow) => if p r then f r else r)
    (fun r => by cases hpr : p r <;> simp [hpr, hid r]), h]
  simp [hrow]

/-- A station lookup through a stations UPDATE whose predicate accepts the
looked-up row returns the rewritten row. -/
theorem getStationExecution_updateStationsWhere_hit (db : Db) (p : StationRow → Bool)
    (f : StationRow → StationRow) (hid : ∀ r, (f r).id = r.id) (rid st : String)
    (row : StationRow) (h : getStationExecution db rid st = some row)
    (hrow : p row = true) :
    getStationExecution ((updateStationsWhere db p f).1) rid st = some (f row) := by
  unfold getStationExecution findStationById at h
  unfold getStationExecution findStationById updateStationsWhere
  dsimp only
  rw [find_map_pred (fun (r : StationRow) => r.id = stationExecutionId rid st)
    (fun (r : StationRow) => if p r then f r else r)
    (fun r => by cases hpr : p r <;> simp [hpr, hid r]), h]
  simp [hrow]

/-- A run lookup untouched by a runs UPDATE rejecting the looked-up row. -/
theorem findRun_updateRunsWhere_frozen (db : Db) (p : RunRow → Bool) (f : RunRow → RunRow)
    (hid : ∀ r, (f r).id = r.id) (runId : String) (row : RunRow)
    (h : findRun db runId = some row) (hrow : p row = false) :
    findRun ((updateRunsWhere db p f).1) runId = some row := by
  unfold findRun at h
  unfold findRun updateRunsWhere
  dsimp only
  rw [find_map_pred (fun (r : RunRow) => r.id = runId)
    (fun (r : RunRow) => if p r then f r else r)
    (fun r => by cases hpr : p r <;> simp [hpr, hid r]), h]
  simp [hrow]

/-- A run lookup through a runs UPDATE accepting the looked-up row. -/
theorem findRun_updateRunsWhere_hit (db : Db) (p : RunRow → Bool) (f : RunRow → RunRow)
    (hid : ∀ r, (f r).id = r.id) (runId : String) (row : RunRow)
    (h : findRun db runId = some row) (hrow : p row = true) :
    findRun ((updateRunsWhere db p f).1) runId = some (f row) := by
  unfold findRun at h
  unfold findRun updateRunsWhere
  dsimp only
  rw [find_map_pred (fun (r : RunRow) => r.id = runId)
    (fun (r : RunRow) => if p r then f r else r)
    (fun r => by cases hpr : p r <;> simp [hpr, hid r]), h]
  simp [hrow]

/-- The self-lookup of an artifact upsert carries the new payload. -/
theorem findArtifactById_upsertArtifact_self (now : Int) (db : Db) (runId type_ : String)
    (payload : ArtifactPayload) :
    (findArtifactById (upsertArtifact now db runId type_ payload)
        ("artifact_" ++ runId ++ "_" ++ type_)).map (·.payload) = some payload := by
  dsimp only [upsertArtifact]
  split
  case _ prior hprior =>
    unfold findArtifactById at hprior ⊢
    dsimp only
    rw [find_map_pred (fun (r : ArtifactRow) => r.id = ("artifact_" ++ runId ++ "_" ++ type_))
      (fun (a : ArtifactRow) => if a.id = ("artifact_" ++ runId ++ "_" ++ type_) then
        { a with payload := payload, created_at := some now } else a)
      (fun r => by by_cases hpr : r.id = ("artifact_" ++ runId ++ "_" ++ type_) <;>
        simp [hpr]), hprior]
    have hpid : prior.id = ("artifact_" ++ runId ++ "_" ++ type_) := by
      have := List.find?_some hprior
      simpa using this
    simp [hpid]
  case _ hprior =>
    unfold findArtifactById at hprior ⊢
    dsimp only
    rw [List.find?_append, hprior]
    simp

/-- Embeds `find?` over an append when the left part already finds a hit. -/
theorem find_append_of_some {α : Type} (p : α → Bool) (l₁ l₂ : List α) (a : α)
    (h : l₁.find? p = some a) : (l₁ ++ l₂).find? p = some a := by
  rw [List.find?_append, h]
  rfl

/-- Embeds `claimQueuedRun` leaves the stations table alone. -/
theorem claimQueuedRun_stations (now : Int) (db : Db) (runId : String) :
    ((claimQueuedRun now db runId).1).stations = db.stations := rfl

/-- Embeds `claimStaleRunningRun` leaves the stations table alone. -/
theorem claimStaleRunningRun_stations (now : Int) (db : Db) (run : RunExecutionRow) :
    ((claimStaleRunningRun now db run).1).stations = db.stations := by
  unfold claimStaleRunningRun
  split <;> first | rfl | (split <;> rfl)

/-- Embeds `updateRunCurrentStation` leaves the stations table alone. -/
theorem updateRunCurrentStation_stations (now : Int) (db : Db) (runId station : String) :
    (updateRunCurrentStation now db runId station).stations = db.stations := rfl

/-- Embeds `markRunSucceeded` leaves the stations table alone. -/
theorem markRunSucceeded_stations (now : Int) (db : Db) (runId : String) :
    ((markRunSucceeded now db runId).1).stations = db.stations := rfl

/-- Embeds `markRunFailed` leaves the stations table alone. -/
theorem markRunFailed_stations (now : Int) (db : Db) (runId station reason : String) :
    ((markRunFailed now db runId station reason).1).stations = db.stations := rfl

/-- A database with the same stations table yields the same station
lookups. -/
theorem getStationExecution_congr_stations (db db' : Db)
    (hst : db'.stations = db.stations) (rid st : String) :
    getStationExecution db' rid st = getStationExecution db rid st := by
  unfold getStationExecution findStationById
  rw [hst]

/-- Embeds `handleTerminalRunFailure` leaves the stations table alone. -/
theorem handleTerminalRunFailure_stations (now : Int) (db : Db)
    (runId station reason : String) :
    ((handleTerminalRunFailure now db runId station reason).1).stations = db.stations := by
  unfold handleTerminalRunFailure
  cases hmf : markRunFailed now db runId station reason with
  | mk db1 marked =>
    have hdb1 : db1.stations = db.stations := by
      have := markRunFailed_stations now db runId station reason
      rw [hmf] at this
      exact this
    dsimp only
    repeat' split
    all_goals exact hdb1

/-- Embeds `persistExecutionArtifacts` leaves the stations table alone. -/
theorem persistExecutionArtifacts_stations (now : Int) (db : Db) (runId station : String)
    (result : StationResult) :
    (persistExecutionArtifacts now db runId station result).stations = db.stations := by
  unfold persistExecutionArtifacts
  have h1 := upsertArtifact_stations now db runId (station ++ "_summary")
    (.execSummary station result.outcome result.summary result.externalRef result.metadata)
  split
  · exact h1
  · split
    · rw [upsertArtifact_stations]
      exact h1
    · exact h1

/-- Embeds `persistLightweightStationArtifact` leaves the stations table alone. -/
theorem persistLightweightStationArtifact_stations (now : Int) (db : Db)
    (run : RunContextRow) (station : String) (result : StationResult) :
    (persistLightweightStationArtifact now db run station result).stations =
      db.stations := by
  unfold persistLightweightStationArtifact
  exact upsertArtifact_stations now db run.id (station ++ "_summary") _

/-- A station lookup is untouched by the guarded CAS writes when the found
row is not `running`. -/
theorem getStationExecution_markStationSucceeded_frozen (now : Int) (db : Db)
    (runId station : String) (startedAtMs : Int) (summary : String)
    (externalRef : Option String) (metadataJson : Option StationMetadata)
    (rid st : String) (row : StationRow)
    (h : getStationExecution db rid st = some row) (hnr : row.status ≠ "running") :
    getStationExecution (markStationSucceeded now db runId station startedAtMs summary
      externalRef metadataJson) rid st = some row := by
  unfold markStationSucceeded
  exact getStationExecution_updateStationsWhere_frozen _ _ _ (by intro r; rfl) _ _ _ h
    (by simp [hnr])

/-- As above for `markStationFailed`. -/
theorem getStationExecution_markStationFailed_frozen (now : Int) (db : Db)
    (runId station reason : String) (externalRef : Option String)
    (metadataJson : Option StationMetadata) (rid st : String) (row : StationRow)
    (h : getStationExecution db rid st = some row) (hnr : row.status ≠ "running") :
    getStationExecution (markStationFailed now db runId station reason externalRef
      metadataJson) rid st = some row := by
  unfold markStationFailed
  exact getStationExecution_updateStationsWhere_frozen _ _ _ (by intro r; rfl) _ _ _ h
    (by simp [hnr])

/-- As above for `persistStationExternalState`. -/
theorem getStationExecution_persistStationExternalState_frozen (db : Db)
    (runId station ref : String) (metadata : Option StationMetadata) (summary : String)
    (rid st : String) (row : StationRow)
    (h : getStationExecution db rid st = some row) (hnr : row.status ≠ "running") :
    getStationExecution (persistStationExternalState db runId station ref metadata
      summary) rid st = some row := by
  unfold persistStationExternalState
  exact getStationExecution_updateStationsWhere_frozen _ _ _ (by intro r; rfl) _ _ _ h
    (by simp [hnr])

/-- Embeds `markStationRunning` targeting a different deterministic id preserves a
station lookup. -/
theorem getStationExecution_markStationRunning_other (db : Db) (runId station : String)
    (startedAt : TimeStr) (externalRef : Option String)
    (metadataJson : Option StationMetadata) (rid st : String) (row : StationRow)
    (h : getStationExecution db rid st = some row)
    (hne : stationExecutionId runId station ≠ stationExecutionId rid st) :
    getStationExecution (markStationRunning db runId station startedAt externalRef
      metadataJson) rid st = some row := by
  have hid : row.id = stationExecutionId rid st := by
    have := List.find?_some (show List.find?
      (fun r => r.id = stationExecutionId rid st) db.stations = some row from h)
    simpa using this
  dsimp only [markStationRunning]
  split
  · exact getStationExecution_updateStationsWhere_frozen _ _ _ (by intro r; rfl) _ _ _ h
      (by simp [hid]; intro hcontra; exact hne hcontra.symm)
  · unfold getStationExecution findStationById at h ⊢
    dsimp only
    rw [find_append_of_some _ _ _ _ h]

/-- Embeds `completeStationExecution` preserves a lookup of a succeeded station
row (its CAS writes are all guarded on `running`). -/
theorem completeStationExecution_preserves_succ (now : Int) (db2 : Db)
    (run : RunContextRow) (station : String) (existing : Option StationRow)
    (startedAtMs : Int) (bodyResult : Except CoderunnerErr StationResponse)
    (rid st : String) (row : StationRow)
    (h : getStationExecution db2 rid st = some row) (hs : row.status = "succeeded") :
    getStationExecution
      (completeStationExecution now db2 run station existing startedAtMs bodyResult).1
      rid st = some row := by
  have hnr : row.status ≠ "running" := by rw [hs]; simp
  unfold completeStationExecution
  match bodyResult with
  | .error e =>
    dsimp only
    split
    · exact h
    · exact getStationExecution_markStationFailed_frozen _ _ _ _ _ _ _ _ _ _ h hnr
  | .ok (.inProgress summary ref md) =>
    exact getStationExecution_persistStationExternalState_frozen _ _ _ _ _ _ _ _ _ h hnr
  | .ok (.result res) =>
    dsimp only
    have h3 : getStationExecution (markStationTerminal now db2 run station startedAtMs res)
        rid st = some row := by
      unfold markStationTerminal
      split
      · exact getStationExecution_markStationSucceeded_frozen _ _ _ _ _ _ _ _ _ _ _ h hnr
      · exact getStationExecution_markStationFailed_frozen _ _ _ _ _ _ _ _ _ _ h hnr
    have h4 : getStationExecution (persistStationResultArtifacts now
        (markStationTerminal now db2 run station startedAtMs res) run station res)
        rid st = some row := by
      rw [getStationExecution_congr_stations
        (markStationTerminal now db2 run station startedAtMs res) _ ?hs4]
      · exact h3
      case hs4 =>
        unfold persistStationResultArtifacts
        split
        · exact persistExecutionArtifacts_stations _ _ _ _ _
        · exact persistLightweightStationArtifact_stations _ _ _ _ _
    split
    · exact h4
    · exact h4

/-- Embeds `executeStation` preserves a lookup of a succeeded station row and never
calls the adapter for that run+phase: the skip guard screens the station's
own id, and every other write is either id-disjoint or `running`-guarded. -/
theorem executeStation_preserves_succ (now : Int) (adapter : Adapter) (db : Db)
    (run : RunContextRow) (station : String) (rid st : String) (row : StationRow)
    (h : getStationExecution db rid st = some row) (hs : row.status = "succeeded") :
    getStationExecution (executeStation now adapter db run station).db rid st = some row
    ∧ ∀ c ∈ (executeStation now adapter db run station).calls,
        ¬(c.input.runId = rid ∧ c.phase = st) := by
  unfold executeStation
  by_cases hskip : (Option.map (·.status) (getStationExecution db run.id station)) =
      some "succeeded"
  · rw [if_pos hskip]
    refine ⟨h, ?_⟩
    intro c hc
    simp at hc
  · rw [if_neg hskip]
    have hne : stationExecutionId run.id station ≠ stationExecutionId rid st := by
      intro hkk
      apply hskip
      have hsame : getStationExecution db run.id station = some row := by
        unfold getStationExecution findStationById at h ⊢
        rw [hkk]
        exact h
      rw [hsame]
      simp [hs]
    have hpre0 : getStationExecution (updateRunCurrentStation now db run.id station)
        rid st = some row := by
      rw [getStationExecution_congr_stations db _
        (updateRunCurrentStation_stations now db run.id station)]
      exact h
    dsimp only
    constructor
    · refine completeStationExecution_preserves_succ now _ run station _ _ _ rid st row
        ?_ hs
      exact getStationExecution_markStationRunning_other _ run.id station _ _ _ rid st
        row hpre0 hne
    · intro c hc
      by_cases hex : (station = "implement" || station = "verify") = true
      · rw [if_pos hex] at hc
        simp only [List.mem_singleton] at hc
        subst hc
        rintro ⟨h1, h2⟩
        have h1x : run.id = rid := h1
        have h2x : station = st := h2
        exact hne (by rw [h1x, h2x])
      · rw [if_neg hex] at hc
        simp at hc

/-- Embeds `runStationLoop` preserves a succeeded station row and never calls the
adapter for it. -/
theorem runStationLoop_preserves_succ (now : Int) (adapter : Adapter)
    (run : RunContextRow) (stations : List String) (db : Db) (rid st : String)
    (row : StationRow)
    (h : getStationExecution db rid st = some row) (hs : row.status = "succeeded") :
    getStationExecution (runStationLoop now adapter run stations db).1 rid st = some row
    ∧ ∀ c ∈ (runStationLoop now adapter run stations db).2.2.1,
        ¬(c.input.runId = rid ∧ c.phase = st) := by
  induction stations generalizing db with
  | nil =>
    refine ⟨h, ?_⟩
    intro c hc
    simp [runStationLoop] at hc
  | cons station rest ih =>
    obtain ⟨hdb, hcalls⟩ := executeStation_preserves_succ now adapter db run station
      rid st row h hs
    obtain ⟨hdb2, hcalls2⟩ := ih _ hdb
    unfold runStationLoop
    dsimp only
    split
    · exact ⟨hdb, hcalls⟩
    · refine ⟨hdb2, ?_⟩
      intro c hc
      rcases List.mem_append.mp hc with hc1 | hc1
      · exact hcalls c hc1
      · exact hcalls2 c hc1

/-- Embeds `runWorkflowSkeleton` preserves a succeeded station row and never calls
the adapter for it. -/
theorem runWorkflowSkeleton_preserves_succ (now : Int) (adapter : Adapter) (db : Db)
    (runId : String) (startStationIndex : Nat) (rid st : String) (row : StationRow)
    (h : getStationExecution db rid st = some row) (hs : row.status = "succeeded") :
    getStationExecution (runWorkflowSkeleton now adapter db runId startStationIndex).1
      rid st = some row
    ∧ ∀ c ∈ (runWorkflowSkeleton now adapter db runId startStationIndex).2.2.1,
        ¬(c.input.runId = rid ∧ c.phase = st) := by
  unfold runWorkflowSkeleton
  split
  · refine ⟨h, ?_⟩
    intro c hc
    simp at hc
  next run hctx =>
    obtain ⟨hdb1, hcalls1⟩ := runStationLoop_preserves_succ now adapter run
      (STATION_NAMES.drop (min startStationIndex STATION_NAMES.length)) db rid st row h hs
    dsimp only
    split
    · exact ⟨hdb1, hcalls1⟩
    · exact ⟨hdb1, hcalls1⟩
    · constructor
      · split
        · rw [getStationExecution_congr_stations _ _
            (markRunSucceeded_stations now _ runId)]
          exact hdb1
        · rw [getStationExecution_congr_stations _ _
            (markRunSucceeded_stations now _ runId)]
          exact hdb1
      · split
        · exact hcalls1
        · exact hcalls1

/-- Embeds `runClaimedWorkflow` preserves a succeeded station row and never calls
the adapter for it. -/
theorem runClaimedWorkflow_preserves_succ (now : Int) (adapter : Adapter) (db : Db)
    (runId : String) (startStationIndex : Nat) (claimLogs : List String)
    (rid st : String) (row : StationRow)
    (h : getStationExecution db rid st = some row) (hs : row.status = "succeeded") :
    getStationExecution
      (runClaimedWorkflow now adapter db runId startStationIndex claimLogs).db rid st =
      some row
    ∧ ∀ c ∈ (runClaimedWorkflow now adapter db runId startStationIndex claimLogs).calls,
        ¬(c.input.runId = rid ∧ c.phase = st) := by
  obtain ⟨hdb, hcalls⟩ := runWorkflowSkeleton_preserves_succ now adapter db runId
    startStationIndex rid st row h hs
  have htf : ∀ (station reason : String), getStationExecution
      ((handleTerminalRunFailure now
        (runWorkflowSkeleton now adapter db runId startStationIndex).1 runId station
        reason).1) rid st = some row := by
    intro station reason
    rw [getStationExecution_congr_stations _ _
      (handleTerminalRunFailure_stations now _ runId station reason)]
    exact hdb
  unfold runClaimedWorkflow
  dsimp only
  split
  · exact ⟨hdb, hcalls⟩
  · exact ⟨hdb, hcalls⟩
  · exact ⟨htf _ _, hcalls⟩
  · exact ⟨htf _ _, hcalls⟩

/-- One `processQueueMessage` delivery preserves a succeeded station row and
never calls the adapter for it. -/
theorem processQueueMessage_preserves_succ (now : Int) (adapter : Adapter) (db : Db)
    (m : QMsg) (rid st : String) (row : StationRow)
    (h : getStationExecution db rid st = some row) (hs : row.status = "succeeded") :
    getStationExecution (processQueueMessage now adapter db m).db rid st = some row
    ∧ ∀ c ∈ (processQueueMessage now adapter db m).calls,
        ¬(c.input.runId = rid ∧ c.phase = st) := by
  have hnil : ∀ (d : Db) (a : QueueAction) (lg : List String),
      getStationExecution d rid st = some row →
      getStationExecution
        (StepOut.db { db := d, action := a, logs := lg, calls := [] }) rid st = some row
      ∧ ∀ c ∈ (StepOut.calls { db := d, action := a, logs := lg, calls := [] }),
          ¬(c.input.runId = rid ∧ c.phase = st) := by
    intro d a lg hd
    refine ⟨hd, ?_⟩
    intro c hc
    simp at hc
  unfold processQueueMessage
  split
  · exact hnil db _ _ h
  · dsimp only
    split
    · exact hnil db _ _ h
    next run hrun =>
      split
      · exact hnil db _ _ h
      next runStatus hstatus =>
        split
        · exact hnil db _ _ h
        · split
          · have hdb1 : getStationExecution
                ((claimQueuedRun now db (toRunQueueMessage m.body).runId).1) rid st =
                some row := by
              rw [getStationExecution_congr_stations _ _
                (claimQueuedRun_stations now db _)]
              exact h
            split
            · split
              · split
                · exact hnil _ _ _ hdb1
                · exact hnil _ _ _ hdb1
              · exact hnil _ _ _ hdb1
            · exact runClaimedWorkflow_preserves_succ now adapter _ run.id 0
                ["run.claimed"] rid st row hdb1 hs
          · split
            · split
              · exact hnil db _ _ h
              · have hdb1 : getStationExecution ((claimStaleRunningRun now db run).1)
                    rid st = some row := by
                  rw [getStationExecution_congr_stations _ _
                    (claimStaleRunningRun_stations now db run)]
                  exact h
                split
                · exact hnil _ _ _ hdb1
                · exact runClaimedWorkflow_preserves_succ now adapter _ run.id _ _
                    rid st row hdb1 hs
            · exact hnil db _ _ h

/-- Any sequence of deliveries preserves a succeeded station row and never
calls the adapter for it. -/
theorem processMessages_preserves_succ (adapter : Adapter) (steps : List (Int × QMsg))
    (db : Db) (rid st : String) (row : StationRow)
    (h : getStationExecution db rid st = some row) (hs : row.status = "succeeded") :
    getStationExecution (processMessages adapter steps db).1 rid st = some row
    ∧ ∀ c ∈ (processMessages adapter steps db).2,
        ¬(c.input.runId = rid ∧ c.phase = st) := by
  induction steps generalizing db with
  | nil =>
    refine ⟨h, ?_⟩
    intro c hc
    simp [processMessages] at hc
  | cons step rest ih =>
    obtain ⟨now, msg⟩ := step
    obtain ⟨hdb, hcalls⟩ := processQueueMessage_preserves_succ now adapter db msg
      rid st row h hs
    obtain ⟨hdb2, hcalls2⟩ := ih _ hdb
    unfold processMessages
    dsimp only
    refine ⟨hdb2, ?_⟩
    intro c hc
    rcases List.mem_append.mp hc with hc1 | hc1
    · exact hcalls c hc1
    · exact hcalls2 c hc1

/-! ## Claim C1 -/

/-- Claim C1 (amended): a station the engine marks `succeeded` gets
`finished_at = now` and `duration_ms = max(1, now - startedAtMs) ≥ 1`; a
station `markStationFailed` marks `failed` gets `finished_at = now` but its
`duration_ms` is left untouched (the UPDATE omits the column), so a failed
station does not acquire a duration. -/
theorem station_terminal_time_fields (now : Int) (db : Db) (runId station : String)
    (startedAtMs : Int) (summary reason : String) (externalRef : Option String)
    (metadataJson : Option StationMetadata) (row : StationRow)
    (h : getStationExecution db runId station = some row) (hr : row.status = "running") :
    ((getStationExecution (markStationSucceeded now db runId station startedAtMs summary
        externalRef metadataJson) runId station).map
        (fun r => (r.status, r.finished_at, r.duration_ms)) =
      some ("succeeded", some (some now), some (max 1 (now - startedAtMs)))
     ∧ (1 : Int) ≤ max 1 (now - startedAtMs))
    ∧ (getStationExecution (markStationFailed now db runId station reason externalRef
        metadataJson) runId station).map
        (fun r => (r.status, r.finished_at, r.duration_ms)) =
      some ("failed", some (some now), row.duration_ms) := by
  have hid : row.id = stationExecutionId runId station := by
    have := List.find?_some (show List.find?
      (fun r => r.id = stationExecutionId runId station) db.stations = some row from h)
    simpa using this
  refine ⟨⟨?_, le_max_left 1 _⟩, ?_⟩
  · unfold markStationSucceeded
    rw [getStationExecution_updateStationsWhere_hit _ _ _ (by intro r; rfl) _ _ _ h
      (by simp [hid, hr])]
    rfl
  · unfold markStationFailed
    rw [getStationExecution_updateStationsWhere_hit _ _ _ (by intro r; rfl) _ _ _ h
      (by simp [hid, hr])]
    rfl

/-- Witness for C1 at a concrete running implement station. -/
theorem station_terminal_time_fields_witness :
    (getStationExecution exDbRunningStation "run_1" "implement" = some exRunningStation
     ∧ exRunningStation.status = "running")
    ∧ (((getStationExecution (markStationSucceeded 500 exDbRunningStation "run_1" "implement" 0
          "ok" none none) "run_1" "implement").map
          (fun r => (r.status, r.finished_at, r.duration_ms)) =
        some ("succeeded", some (some 500), some (max 1 (500 - 0)))
       ∧ (1 : Int) ≤ max 1 (500 - 0))
      ∧ (getStationExecution (markStationFailed 500 exDbRunningStation "run_1" "implement"
          "boom" none none) "run_1" "implement").map
          (fun r => (r.status, r.finished_at, r.duration_ms)) =
        some ("failed", some (some 500), exRunningStation.duration_ms)) :=
  ⟨⟨by decide, rfl⟩,
   station_terminal_time_fields 500 exDbRunningStation "run_1" "implement" 0 "ok" "boom"
     none none exRunningStation (by decide) rfl⟩

/-- Counterexample to C1 as stated: `markStationFailed` leaves the row
terminal (`failed`, `finished_at` set) with `duration_ms = NULL`, not ≥ 1. -/
theorem station_failed_without_duration :
    (getStationExecution (markStationFailed 500 exDbRunningStation "run_1" "implement"
        "boom" none none) "run_1" "implement").map
      (fun r => (r.status, r.finished_at, r.duration_ms)) =
    some ("failed", some (some 500), none) := by decide

/-! ## Claim C5 -/

/-- Claim C5 (amended): the status-guarded CAS writes (`markStationSucceeded`,
`markStationFailed`, `persistStationExternalState`) never touch a row whose
status is terminal (`succeeded`, `failed`, `skipped`), matching the declared
transition table; but `markStationRunning`'s upsert overwrites the status of
any existing row with `running`, so a `failed` or `skipped` row can be moved
back to `running` (only the `succeeded` case is screened out, by
`executeStation`'s skip guard, not by the SQL). -/
theorem station_guarded_cas_transitions (now : Int) (db : Db) (runId station : String)
    (startedAtMs : Int) (summary reason ref : String) (externalRef : Option String)
    (metadataJson : Option StationMetadata) (startedAt : TimeStr) (row : StationRow)
    (h : getStationExecution db runId station = some row)
    (hterm : row.status = "succeeded" ∨ row.status = "failed" ∨ row.status = "skipped") :
    getStationExecution (markStationSucceeded now db runId station startedAtMs summary
      externalRef metadataJson) runId station = some row
    ∧ getStationExecution (markStationFailed now db runId station reason externalRef
      metadataJson) runId station = some row
    ∧ getStationExecution (persistStationExternalState db runId station ref metadataJson
      summary) runId station = some row
    ∧ (getStationExecution (markStationRunning db runId station startedAt externalRef
      metadataJson) runId station).map (·.status) = some "running" := by
  have hnr : row.status ≠ "running" := by
    rcases hterm with h1 | h1 | h1 <;> simp [h1]
  have hfalse : ∀ k : String, (decide (row.id = k) && decide (row.status = "running")) =
      false := by
    intro k
    simp [hnr]
  have hid : row.id = stationExecutionId runId station := by
    have := List.find?_some (show List.find?
      (fun r => r.id = stationExecutionId runId station) db.stations = some row from h)
    simpa using this
  refine ⟨?_, ?_, ?_, ?_⟩
  · unfold markStationSucceeded
    exact getStationExecution_updateStationsWhere_frozen _ _ _ (by intro r; rfl) _ _ _ h
      (hfalse _)
  · unfold markStationFailed
    exact getStationExecution_updateStationsWhere_frozen _ _ _ (by intro r; rfl) _ _ _ h
      (hfalse _)
  · unfold persistStationExternalState
    exact getStationExecution_updateStationsWhere_frozen _ _ _ (by intro r; rfl) _ _ _ h
      (hfalse _)
  · dsimp only [markStationRunning]
    rw [show findStationById db (stationExecutionId runId station) = some row from h]
    dsimp only
    rw [getStationExecution_updateStationsWhere_hit _ _ _ (by intro r; rfl) _ _ _ h
      (by simp [hid])]
    rfl

/-- Witness for C5 at a concrete succeeded intake station. -/
theorem station_guarded_cas_transitions_witness :
    (getStationExecution exDbSucceededIntake "run_1" "intake" = some exSucceededIntake
     ∧ exSucceededIntake.status = "succeeded")
    ∧ (getStationExecution (markStationSucceeded 700 exDbSucceededIntake "run_1" "intake" 0
        "again" none none) "run_1" "intake" = some exSucceededIntake
      ∧ getStationExecution (markStationFailed 700 exDbSucceededIntake "run_1" "intake"
        "late failure" none none) "run_1" "intake" = some exSucceededIntake
      ∧ getStationExecution (persistStationExternalState exDbSucceededIntake "run_1" "intake"
        "job_9" none "s") "run_1" "intake" = some exSucceededIntake
      ∧ (getStationExecution (markStationRunning exDbSucceededIntake "run_1" "intake"
        (some 700) none none) "run_1" "intake").map (·.status) = some "running") :=
  ⟨⟨by decide, rfl⟩,
   station_guarded_cas_transitions 700 exDbSucceededIntake "run_1" "intake" 0 "again"
     "late failure" "job_9" none none (some 700) exSucceededIntake (by decide)
     (Or.inl rfl)⟩

/-- Counterexample to C5 as stated: a `failed` (terminal) station row is
moved back to `running` by a `markStationRunning` call. -/
theorem station_failed_reopened_by_markStationRunning :
    (getStationExecution exDbFailedStation "run_1" "implement").map (·.status) =
      some "failed"
    ∧ (getStationExecution (markStationRunning exDbFailedStation "run_1" "implement"
        (some 200) none none) "run_1" "implement").map (·.status) = some "running" := by
  constructor <;> decide

/-! ## Claim C4 -/

/-- Claim C4 (code evaluated at the failing input): `parseMockOutcome` never
sees the phase, so a goal carrying `[verify-fail]` yields `failed` in the
implement phase as well — the adapter's own test expects `succeeded` there
(`keeps verify-specific failure markers scoped to verify phase`). -/
theorem mock_verify_fail_marker_ignores_phase :
    parseMockOutcome (some "[verify-fail] only verify should fail") = "failed"
    ∧ (runMockTask 0 "implement" exVerifyFailInput).outcomeOf = some "failed"
    ∧ (runMockTask 0 "verify" exVerifyFailInput).outcomeOf = some "failed" := by
  refine ⟨by decide, by decide, by decide⟩

/-! ## Claim C9 -/

/-- Claim C9: for a non-empty `logsInline` persisted by an execution station,
the stored `<station>_runner_logs_excerpt` artifact carries exactly
`buildLogsExcerpt`'s fields; logs of length ≤ 4000 are stored verbatim and
unmarked, logs of length ≥ 4001 are cut to the first 4000 characters with the
truncation note appended, `truncated = true` and `originalLength` the
original length; the stored excerpt never exceeds 4000 characters of log
content plus the 26-character note. -/
theorem runner_logs_excerpt_bounds (now : Int) (db : Db) (runId station : String)
    (result : StationResult) (L : String)
    (_hstation : station = "implement" ∨ station = "verify")
    (hlog : result.logsInline = some L) (hpos : 0 < L.length) :
    (findArtifactById (persistExecutionArtifacts now db runId station result)
        ("artifact_" ++ runId ++ "_" ++ (station ++ "_runner_logs_excerpt"))).map
      (·.payload) =
      some (.logsExcerpt station (buildLogsExcerpt L).excerpt (buildLogsExcerpt L).truncated
        (buildLogsExcerpt L).originalLength
        (if (buildLogsExcerpt L).truncated then
          some "Log output truncated for inline artifact storage" else none))
    ∧ (L.length ≤ 4000 →
        buildLogsExcerpt L = { excerpt := L, truncated := false, originalLength := L.length })
    ∧ (4001 ≤ L.length →
        buildLogsExcerpt L =
          { excerpt := String.mk (L.data.take 4000) ++ "\n[truncated to 4000 chars]"
            truncated := true
            originalLength := L.length })
    ∧ (buildLogsExcerpt L).truncated = decide (4000 < L.length)
    ∧ (buildLogsExcerpt L).excerpt.length ≤ 4000 + 26 := by
  refine ⟨?_, ?_, ?_, ?_, ?_⟩
  · unfold persistExecutionArtifacts
    rw [hlog]
    dsimp only
    rw [if_pos hpos]
    exact findArtifactById_upsertArtifact_self now _ runId (station ++ "_runner_logs_excerpt") _
  · intro hle
    unfold buildLogsExcerpt
    rw [if_pos (by simpa [RUNNER_LOG_EXCERPT_LIMIT] using hle)]
  · intro hge
    unfold buildLogsExcerpt
    rw [if_neg (by unfold RUNNER_LOG_EXCERPT_LIMIT; omega)]
    rfl
  · unfold buildLogsExcerpt
    by_cases hle : L.length ≤ RUNNER_LOG_EXCERPT_LIMIT
    · rw [if_pos hle]
      unfold RUNNER_LOG_EXCERPT_LIMIT at hle
      have hx : ¬ 4000 < L.length := by omega
      show false = decide (4000 < L.length)
      exact (decide_eq_false hx).symm
    · rw [if_neg hle]
      unfold RUNNER_LOG_EXCERPT_LIMIT at hle
      have hx : 4000 < L.length := by omega
      show true = decide (4000 < L.length)
      exact (decide_eq_true hx).symm
  · unfold buildLogsExcerpt
    by_cases hle : L.length ≤ RUNNER_LOG_EXCERPT_LIMIT
    · rw [if_pos hle]
      unfold RUNNER_LOG_EXCERPT_LIMIT at hle
      show L.length ≤ 4000 + 26
      omega
    · rw [if_neg hle]
      have h1 : (String.mk (L.data.take 4000)).length ≤ 4000 := by
        show (L.data.take 4000).length ≤ 4000
        exact List.length_take_le 4000 L.data
      have h2 : ("\n[truncated to 4000 chars]" : String).length = 26 := rfl
      show (String.mk (L.data.take 4000) ++ "\n[truncated to 4000 chars]").length ≤ 4000 + 26
      rw [String.length_append, h2]
      omega

/-- Witness for C9 at a short concrete log. -/
theorem runner_logs_excerpt_bounds_witness :
    (exLogsResult.logsInline = some "abc" ∧ 0 < "abc".length)
    ∧ ((findArtifactById (persistExecutionArtifacts 1000 exDb "run_1" "implement" exLogsResult)
        ("artifact_" ++ "run_1" ++ "_" ++ ("implement" ++ "_runner_logs_excerpt"))).map
        (·.payload) =
      some (.logsExcerpt "implement" (buildLogsExcerpt "abc").excerpt
        (buildLogsExcerpt "abc").truncated (buildLogsExcerpt "abc").originalLength
        (if (buildLogsExcerpt "abc").truncated then
          some "Log output truncated for inline artifact storage" else none))
      ∧ ("abc".length ≤ 4000 →
          buildLogsExcerpt "abc" =
            { excerpt := "abc", truncated := false, originalLength := "abc".length })
      ∧ (4001 ≤ "abc".length →
          buildLogsExcerpt "abc" =
            { excerpt := String.mk ("abc".data.take 4000) ++ "\n[truncated to 4000 chars]"
              truncated := true
              originalLength := "abc".length })
      ∧ (buildLogsExcerpt "abc").truncated = decide (4000 < "abc".length)
      ∧ (buildLogsExcerpt "abc").excerpt.length ≤ 4000 + 26) :=
  ⟨⟨rfl, by decide⟩,
   runner_logs_excerpt_bounds 1000 exDb "run_1" "implement" exLogsResult "abc"
     (Or.inl rfl) rfl (by decide)⟩

/-! ## Claim C10 -/

/-- Claim C10: in mock mode `runImplementTask` and `runVerifyTask` always
return the terminal variant (the adapter never yields `outcome: null` and
never throws), carrying the resume `externalRef` when one was supplied and
`mock_<phase>_<runId>` otherwise — so a mock-mode station never needs a
second delivery to finish. -/
theorem mock_adapter_always_terminal (adapterNow : Int) (input : CoderunnerTaskInput) :
    (∃ r : StationResult, runImplementTaskMock adapterNow input = .ok (.result r)
      ∧ isTerminalStationExecutionResponse (.result r) = true
      ∧ r.externalRef = some (match input.resume with
          | some res => res.externalRef
          | none => "mock_implement_" ++ input.runId))
    ∧ (∃ r : StationResult, runVerifyTaskMock adapterNow input = .ok (.result r)
      ∧ isTerminalStationExecutionResponse (.result r) = true
      ∧ r.externalRef = some (match input.resume with
          | some res => res.externalRef
          | none => "mock_verify_" ++ input.runId)) := by
  constructor
  · exact ⟨_, rfl, rfl, by cases input.resume <;> rfl⟩
  · exact ⟨_, rfl, rfl, by cases input.resume <;> rfl⟩

/-- Databases with the same runs table yield the same run lookups. -/
theorem findRun_congr_runs (db db' : Db) (hr : db'.runs = db.runs) (runId : String) :
    findRun db' runId = findRun db runId := by
  unfold findRun
  rw [hr]

/-- Splitting a `countP` of a conjunction at the unique `find?` hit. -/
theorem countP_and_of_find {α : Type} (p q : α → Bool) (l : List α) (a : α)
    (hfind : l.find? p = some a) (hcount : l.countP p = 1) :
    l.countP (fun x => p x && q x) = if q a then 1 else 0 := by
  induction l with
  | nil => simp [List.find?] at hfind
  | cons x t ih =>
    cases hx : p x with
    | true =>
      have hax : a = x := by
        rw [List.find?_cons_of_pos _ hx] at hfind
        exact (Option.some.inj hfind).symm
      have ht0 : t.countP p = 0 := by
        rw [List.countP_cons_of_pos _ _ hx] at hcount
        omega
      have htq : t.countP (fun x => p x && q x) = 0 := by
        rw [List.countP_eq_zero] at ht0 ⊢
        intro b hb
        simp [ht0 b hb]
      subst hax
      cases hq : q a with
      | true =>
        rw [List.countP_cons_of_pos _ _ (by simp [hx, hq]), htq]
        simp [hq]
      | false =>
        rw [List.countP_cons_of_neg _ _ (by simp [hx, hq]), htq]
        simp [hq]
    | false =>
      rw [List.find?_cons_of_neg _ (by simp [hx])] at hfind
      rw [List.countP_cons_of_neg _ _ (by simp [hx])] at hcount
      rw [List.countP_cons_of_neg _ _ (by simp [hx])]
      exact ih hfind hcount

/-- Embeds `updateRunCurrentStation` preserves the id/status projection of any run
lookup. -/
theorem updateRunCurrentStation_findRun_proj (now : Int) (db : Db)
    (runId station runId' : String) :
    (findRun (updateRunCurrentStation now db runId station) runId').map
      (fun r => (r.id, r.status)) =
    (findRun db runId').map (fun r => (r.id, r.status)) := by
  unfold updateRunCurrentStation findRun updateRunsWhere
  dsimp only
  rw [find_map_pred (fun (r : RunRow) => r.id = runId')
    (fun r => if (r.id = runId && r.status = "running") = true then
      { r with current_station := some station, heartbeat_at := some (some now) } else r)
    (fun r => by by_cases hpr : (r.id = runId && r.status = "running") = true <;>
      simp [hpr])]
  cases hf : List.find? (fun r => r.id = runId') db.runs with
  | none => rfl
  | some r0 =>
    by_cases h1 : r0.id = runId
    · by_cases h2 : r0.status = "running"
      · simp [h1, h2]
      · simp [h1, h2]
    · simp [h1]

/-- Embeds `updateRunCurrentStation` preserves any id/status `countP`. -/
theorem updateRunCurrentStation_countP (now : Int) (db : Db)
    (runId station RID : String) :
    (updateRunCurrentStation now db runId station).runs.countP
      (fun r => r.id = RID && r.status = "running") =
    db.runs.countP (fun r => r.id = RID && r.status = "running") := by
  unfold updateRunCurrentStation updateRunsWhere
  dsimp only
  exact countP_map_pred (fun (r : RunRow) => r.id = RID && r.status = "running")
    (fun (r : RunRow) => if (r.id = runId && r.status = "running") = true then
      { r with current_station := some station, heartbeat_at := some (some now) } else r)
    (fun r => by by_cases hpr : (r.id = runId && r.status = "running") = true <;>
      simp [hpr])
    db.runs

/-- The runs table is untouched by the PR2 station writes. -/
theorem PR2_markStationRunning_runs (db : Db) (runId station : String)
    (startedAt : TimeStr) :
    (PR2.markStationRunning db runId station startedAt).runs = db.runs := by
  dsimp only [PR2.markStationRunning]
  split <;> rfl

theorem PR2_markStationSucceeded_runs (now : Int) (db : Db) (runId station : String)
    (startedAtMs : Int) :
    (PR2.markStationSucceeded now db runId station startedAtMs).runs = db.runs := rfl

/-- Embeds `PR2.executeStation` only touches a run row's `current_station` and
`heartbeat_at`: lookups project and `countP` counts identically. -/
theorem PR2_executeStation_findRun_proj (now : Int) (db : Db)
    (runId station runId' : String) :
    (findRun (PR2.executeStation now db runId station) runId').map
      (fun r => (r.id, r.status)) =
    (findRun db runId').map (fun r => (r.id, r.status)) := by
  unfold PR2.executeStation
  rw [show findRun (PR2.markStationSucceeded now (PR2.markStationRunning
      (updateRunCurrentStation now db runId station) runId station (some now)) runId
      station now) runId' = findRun (updateRunCurrentStation now db runId station) runId'
    from findRun_congr_runs _ _ (by rw [PR2_markStationSucceeded_runs,
      PR2_markStationRunning_runs]) runId']
  exact updateRunCurrentStation_findRun_proj now db runId station runId'

theorem PR2_executeStation_countP (now : Int) (db : Db) (runId station RID : String) :
    (PR2.executeStation now db runId station).runs.countP
      (fun r => r.id = RID && r.status = "running") =
    db.runs.countP (fun r => r.id = RID && r.status = "running") := by
  unfold PR2.executeStation
  rw [PR2_markStationSucceeded_runs, PR2_markStationRunning_runs]
  exact updateRunCurrentStation_countP now db runId station RID

/-- The PR2 station fold preserves run projections and counts. -/
theorem PR2_stationFold_findRun_proj (now : Int) (runId runId' : String)
    (stations : List String) (db : Db) :
    (findRun (stations.foldl (fun acc station => PR2.executeStation now acc runId station)
      db) runId').map (fun r => (r.id, r.status)) =
    (findRun db runId').map (fun r => (r.id, r.status)) := by
  induction stations generalizing db with
  | nil => rfl
  | cons station rest ih =>
    rw [List.foldl_cons, ih, PR2_executeStation_findRun_proj]

theorem PR2_stationFold_countP (now : Int) (runId RID : String) (stations : List String)
    (db : Db) :
    ((stations.foldl (fun acc station => PR2.executeStation now acc runId station)
      db).runs).countP (fun r => r.id = RID && r.status = "running") =
    db.runs.countP (fun r => r.id = RID && r.status = "running") := by
  induction stations generalizing db with
  | nil => rfl
  | cons station rest ih =>
    rw [List.foldl_cons, ih, PR2_executeStation_countP]

/-- Embeds `createCompletionArtifact` guarantees the `workflow_summary` artifact
exists afterwards (insert when absent, kept as-is when present). -/
theorem createCompletionArtifact_isSome (now : Int) (db : Db) (runId : String) :
    (findArtifactById (PR2.createCompletionArtifact now db runId)
      ("artifact_" ++ runId ++ "_workflow_summary")).isSome = true := by
  dsimp only [PR2.createCompletionArtifact]
  split
  next prior hprior =>
    rw [hprior]
    rfl
  next hprior =>
    unfold findArtifactById at hprior ⊢
    dsimp only
    rw [List.find?_append, hprior]
    simp

theorem createCompletionArtifact_runs (now : Int) (db : Db) (runId : String) :
    (PR2.createCompletionArtifact now db runId).runs = db.runs := by
  dsimp only [PR2.createCompletionArtifact]
  split <;> rfl

/-! ## Claim C2 -/

/-- Claim C2 (amended): in the PR2 skeleton revision of the engine, whenever
the finalize CAS `running → succeeded` changes exactly one row, the run ends
`succeeded` and the `workflow_summary` artifact is present after
`createCompletionArtifact`; a thrown artifact write error is caught and
logged (`run.succeeded.artifact_error`) without undoing the succeeded
status. The final engine revision writes no workflow_summary artifact on its
finalize path (see the counterexample). -/
theorem pr2_finalize_writes_workflow_summary (now : Int) (db : Db) (runId : String)
    (artifactWriteFails : Bool) (r : RunRow)
    (hfind : findRun db runId = some r) (hst : r.status = "running")
    (hcount : db.runs.countP (fun x => x.id = runId && x.status = "running") = 1) :
    ((findRun (PR2.runWorkflowSkeleton now db runId artifactWriteFails).1 runId).map
      (·.status) = some "succeeded")
    ∧ (artifactWriteFails = false →
        (findArtifactById (PR2.runWorkflowSkeleton now db runId artifactWriteFails).1
          ("artifact_" ++ runId ++ "_workflow_summary")).isSome = true)
    ∧ (artifactWriteFails = true →
        (PR2.runWorkflowSkeleton now db runId artifactWriteFails).2 =
          ["run.succeeded.artifact_error", "run.succeeded"]) := by
  have hrid : r.id = runId := by
    have := List.find?_some (show List.find? (fun x => x.id = runId) db.runs = some r
      from hfind)
    simpa using this
  have hproj := PR2_stationFold_findRun_proj now runId runId STATION_NAMES db
  have hcnt := PR2_stationFold_countP now runId runId STATION_NAMES db
  rw [hfind] at hproj
  cases h5 : findRun (STATION_NAMES.foldl
      (fun acc station => PR2.executeStation now acc runId station) db) runId with
  | none =>
    rw [h5] at hproj
    simp at hproj
  | some r5 =>
    rw [h5] at hproj
    simp only [Option.map_some'] at hproj
    have h5id : r5.id = r.id := (Prod.mk.injEq _ _ _ _).mp (Option.some.inj hproj) |>.1
    have h5st : r5.status = r.status :=
      (Prod.mk.injEq _ _ _ _).mp (Option.some.inj hproj) |>.2
    have hcnt1 : (STATION_NAMES.foldl
        (fun acc station => PR2.executeStation now acc runId station) db).runs.countP
        (fun x => x.id = runId && x.status = "running") = 1 := by
      rw [hcnt]
      exact hcount
    have hchanges : (markRunSucceeded now (STATION_NAMES.foldl
        (fun acc station => PR2.executeStation now acc runId station) db) runId).2 =
        true := by
      unfold markRunSucceeded updateRunsWhere
      dsimp only
      exact decide_eq_true hcnt1
    have hfind6 : findRun ((markRunSucceeded now (STATION_NAMES.foldl
        (fun acc station => PR2.executeStation now acc runId station) db) runId).1)
        runId = some { r5 with
          status := "succeeded"
          finished_at := some (some now)
          current_station := none
          failure_reason := none
          heartbeat_at := some (some now) } := by
      unfold markRunSucceeded
      exact findRun_updateRunsWhere_hit _ _ _ (by intro x; rfl) _ _ h5
        (by simp [h5id, hrid, h5st, hst])
    refine ⟨?_, ?_, ?_⟩
    · unfold PR2.runWorkflowSkeleton
      dsimp only
      rw [hchanges]
      cases artifactWriteFails with
      | true =>
        simp only [Bool.not_true, Bool.false_eq_true, if_false, if_true]
        rw [hfind6]
        rfl
      | false =>
        simp only [Bool.not_true, Bool.false_eq_true, if_false]
        rw [findRun_congr_runs _ _ (createCompletionArtifact_runs now _ runId) runId,
          hfind6]
        rfl
    · intro hfalse
      subst hfalse
      unfold PR2.runWorkflowSkeleton
      dsimp only
      rw [hchanges]
      simp only [Bool.not_true, Bool.false_eq_true, if_false]
      exact createCompletionArtifact_isSome now _ runId
    · intro htrue
      subst htrue
      unfold PR2.runWorkflowSkeleton
      dsimp only
      rw [hchanges]
      rfl

/-- Witness for C2 at the one-run store, successful artifact write. -/
theorem pr2_finalize_writes_workflow_summary_witness :
    (findRun exDbClaimedRun "run_1" = some exClaimedRun
     ∧ exClaimedRun.status = "running"
     ∧ exDbClaimedRun.runs.countP (fun x => x.id = "run_1" && x.status = "running") = 1)
    ∧ (((findRun (PR2.runWorkflowSkeleton 900 exDbClaimedRun "run_1" false).1
          "run_1").map (·.status) = some "succeeded")
      ∧ (false = false →
          (findArtifactById (PR2.runWorkflowSkeleton 900 exDbClaimedRun "run_1" false).1
            ("artifact_" ++ "run_1" ++ "_workflow_summary")).isSome = true)
      ∧ (false = true →
          (PR2.runWorkflowSkeleton 900 exDbClaimedRun "run_1" false).2 =
            ["run.succeeded.artifact_error", "run.succeeded"])) :=
  ⟨⟨by decide, rfl, by decide⟩,
   pr2_finalize_writes_workflow_summary 900 exDbClaimedRun "run_1" false exClaimedRun
     (by decide) rfl (by decide)⟩

set_option maxRecDepth 400000 in
/-- Counterexample to C2 as stated: the final engine revision
(`runWorkflowSkeleton`, lines 1365–1387) finalizes the run as `succeeded`
but writes no `workflow_summary` artifact — the full mock-mode happy path
acks with seven per-station artifacts and none of type `workflow_summary`. -/
theorem final_engine_finalize_without_workflow_summary :
    (findRun exOut.db "run_1").map (·.status) = some "succeeded"
    ∧ exOut.action = .ack
    ∧ exOut.logs.contains "run.succeeded" = true
    ∧ findArtifactById exOut.db "artifact_run_1_workflow_summary" = none := by
  refine ⟨by decide, by decide, by decide, by decide⟩

/-! ## Claim C8 -/

/-- Claim C8: `executeStation` on a station whose row is already `succeeded` is
a no-op — it returns the store unchanged, logs only
`station.skip.already_succeeded`, raises nothing and invokes no adapter; and
across any sequence of queue deliveries the succeeded row is never changed
and the adapter is never called for that run and phase again. -/
theorem succeeded_station_never_reexecuted :
    (∀ (now : Int) (adapter : Adapter) (db : Db) (run : RunContextRow) (station : String)
        (row : StationRow),
      getStationExecution db run.id station = some row → row.status = "succeeded" →
      executeStation now adapter db run station =
        { db := db, logs := ["station.skip.already_succeeded"], calls := [], err := none })
    ∧ (∀ (adapter : Adapter) (steps : List (Int × QMsg)) (db : Db) (rid st : String)
        (row : StationRow),
      getStationExecution db rid st = some row → row.status = "succeeded" →
      getStationExecution (processMessages adapter steps db).1 rid st = some row
      ∧ ∀ c ∈ (processMessages adapter steps db).2,
          ¬(c.input.runId = rid ∧ c.phase = st)) := by
  constructor
  · intro now adapter db run station row h hs
    unfold executeStation
    rw [if_pos (by rw [h]; simp [hs])]
  · intro adapter steps db rid st row h hs
    exact processMessages_preserves_succ adapter steps db rid st row h hs

set_option maxRecDepth 400000 in
/-- Witness for C8: the succeeded intake station survives a skip call and a
full redelivery untouched. -/
theorem succeeded_station_never_reexecuted_witness :
    (getStationExecution exDbSucceededIntake "run_1" "intake" = some exSucceededIntake
     ∧ exSucceededIntake.status = "succeeded")
    ∧ executeStation 2000 (mockAdapter 2000) exDbSucceededIntake exRunContext "intake" =
        { db := exDbSucceededIntake, logs := ["station.skip.already_succeeded"],
          calls := [], err := none }
    ∧ getStationExecution
        (processMessages (mockAdapter 2000) [(2000, { id := "m5", body := exBody })]
          exDbSucceededIntake).1 "run_1" "intake" = some exSucceededIntake :=
  ⟨⟨by decide, rfl⟩,
   succeeded_station_never_reexecuted.1 2000 (mockAdapter 2000) exDbSucceededIntake
     exRunContext "intake" exSucceededIntake (by decide) rfl,
   (succeeded_station_never_reexecuted.2 (mockAdapter 2000)
     [(2000, { id := "m5", body := exBody })] exDbSucceededIntake "run_1" "intake"
     exSucceededIntake (by decide) rfl).1⟩

/-! ## Claim C3 -/

/-- Claim C3 (amended): a delivered message whose body fails
`isRunQueueMessage` — which checks field types exactly, requiring
`issueNumber` to satisfy `Number.isInteger` but not to be positive — is
acked with the single log event `queue.message.invalid` and no store write
and no adapter call. -/
theorem invalid_queue_message_dropped (now : Int) (adapter : Adapter) (db : Db) (m : QMsg)
    (h : isRunQueueMessage m.body = false) :
    processQueueMessage now adapter db m =
      { db := db, action := .ack, logs := ["queue.message.invalid"], calls := [] } := by
  unfold processQueueMessage
  simp [h]

/-- Witness for C3 at a message whose `issueNumber` is a string. -/
theorem invalid_queue_message_dropped_witness :
    isRunQueueMessage exBodyBadType = false
    ∧ processQueueMessage 1000 (mockAdapter 1000) exDb { id := "m3", body := exBodyBadType } =
      { db := exDb, action := .ack, logs := ["queue.message.invalid"], calls := [] } :=
  ⟨by decide,
   invalid_queue_message_dropped 1000 (mockAdapter 1000) exDb
     { id := "m3", body := exBodyBadType } (by decide)⟩

set_option maxRecDepth 200000 in
/-- Counterexample to C3 as stated: a message with `issueNumber = 0` (an
integer, but not > 0) passes validation and is processed normally — the run
is claimed and driven, the store is written, and `queue.message.invalid` is
never logged. -/
theorem queue_message_zero_issue_processed :
    isRunQueueMessage exBodyZeroIssue = true
    ∧ exOutZeroIssue.logs.contains "queue.message.invalid" = false
    ∧ exOutZeroIssue.logs.contains "run.claimed" = true
    ∧ exOutZeroIssue.db ≠ exDb := by
  refine ⟨by decide, by decide, by decide, by decide⟩

/-! ## Claim C7 -/

/-- Claim C7 (amended): a `running` run is treated as stale iff
`now - Date.parse(heartbeat_at ?? started_at) ≥ 30 s` — the heartbeat alone
when present (not the max with `started_at`), the start time only as a
fallback; a run with neither timestamp (or an unparseable one) is stale
immediately; a fresh run defers the message with `retry` and no store
write. -/
theorem stale_resume_threshold (now : Int) (run : RunRow) (hst : run.status = "running") :
    (∀ hb : Int, run.heartbeat_at = some (some hb) →
      (shouldResumeRunningRun now run = true ↔ RUN_RESUME_STALE_MS ≤ now - hb))
    ∧ (run.heartbeat_at = none → ∀ st : Int, run.started_at = some (some st) →
      (shouldResumeRunningRun now run = true ↔ RUN_RESUME_STALE_MS ≤ now - st))
    ∧ (run.heartbeat_at = none → run.started_at = none →
      shouldResumeRunningRun now run = true)
    ∧ (∀ (adapter : Adapter) (db : Db) (m : QMsg),
        isRunQueueMessage m.body = true →
        getRunForExecution db (toRunQueueMessage m.body).runId = some run →
        shouldResumeRunningRun now run = false →
        processQueueMessage now adapter db m =
          { db := db, action := .retry, logs := ["run.defer.running"], calls := [] }) := by
  refine ⟨?_, ?_, ?_, ?_⟩
  · intro hb hhb
    unfold shouldResumeRunningRun
    simp [hst, hhb, RUN_RESUME_STALE_MS, ge_iff_le]
  · intro hhb st hstarted
    unfold shouldResumeRunningRun
    simp [hst, hhb, hstarted, Option.orElse, RUN_RESUME_STALE_MS, ge_iff_le]
  · intro hhb hstarted
    unfold shouldResumeRunningRun
    simp [hst, hhb, hstarted, Option.orElse]
  · intro adapter db m hbody hget hfresh
    unfold processQueueMessage
    simp only [hbody, Bool.not_true, Bool.false_eq_true, if_false, hget]
    have hparse : parseRunStatus run.status = some "running" := by
      rw [hst]; rfl
    rw [hparse]
    simp [hst, hfresh, isTerminalRunStatus, TERMINAL_RUN_STATUSES]

/-- Witness for C7 at a fresh heartbeat one second old. -/
theorem stale_resume_threshold_witness :
    exFreshRunningRun.status = "running"
    ∧ (shouldResumeRunningRun 35000 exFreshRunningRun = true ↔
        RUN_RESUME_STALE_MS ≤ 35000 - 34000)
    ∧ processQueueMessage 35000 (mockAdapter 35000) exDbFreshRunning
        { id := "m4", body := exBody } =
      { db := exDbFreshRunning, action := .retry, logs := ["run.defer.running"],
        calls := [] } :=
  ⟨rfl,
   (stale_resume_threshold 35000 exFreshRunningRun rfl).1 34000 rfl,
   (stale_resume_threshold 35000 exFreshRunningRun rfl).2.2.2 (mockAdapter 35000)
     exDbFreshRunning { id := "m4", body := exBody } (by decide) (by decide) (by decide)⟩

/-- Counterexample to C7 as stated: with `heartbeat_at` older than
`started_at` the code measures staleness from the heartbeat alone, so a run
that is fresh under the claimed `now - max(heartbeat_at, started_at) ≥ 30 s`
rule is nevertheless treated as stale. -/
theorem stale_uses_heartbeat_not_max :
    shouldResumeRunningRun 35000 exStaleHeartbeatRun = true
    ∧ 35000 - max 0 25000 < RUN_RESUME_STALE_MS := by
  constructor <;> decide

/-! ## Claim C6 -/

/-- Claim C6: a submission whose `Idempotency-Key` matches an existing claim
with a different `request_hash` is answered 409 and the control-plane state
(runs, claims, queue) is returned unchanged. -/
theorem idempotency_conflict_no_side_effect (now : Int) (uuid : String)
    (sha : String → String) (enqueueOk : Bool) (s : Control.CtrlState)
    (hdr : Option String) (input : Control.CreateRunInput) (key : String)
    (c : Control.IdempotencyRow)
    (hhdr : hdr.map Control.strTrim = some key) (hkey : key ≠ "")
    (hget : Control.getIdempotencyRow s key = some c)
    (hhash : c.request_hash ≠ sha (Control.canonicalRunRequestPayload input)) :
    Control.handleCreateRun now uuid sha enqueueOk s hdr input = (s, { status := 409 }) := by
  unfold Control.handleCreateRun
  rw [hhdr]
  simp only [if_neg hkey]
  rw [hget]
  unfold Control.replayExistingRun
  rw [hget]
  dsimp only
  rw [if_pos hhash]

/-- Witness for C6: the stored hash `h1` conflicts with the tagged hash of a
fresh payload. -/
theorem idempotency_conflict_no_side_effect_witness :
    ((some "k1" : Option String).map Control.strTrim = some "k1" ∧ "k1" ≠ ""
     ∧ Control.getIdempotencyRow exCtrlState "k1" = some exClaim
     ∧ exClaim.request_hash ≠
       (fun p => "sha:" ++ p) (Control.canonicalRunRequestPayload exCreateRunInput))
    ∧ Control.handleCreateRun 0 "u" (fun p => "sha:" ++ p) true exCtrlState (some "k1")
        exCreateRunInput = (exCtrlState, { status := 409 }) :=
  ⟨⟨by decide, by decide, by decide, by decide⟩,
   idempotency_conflict_no_side_effect 0 "u" (fun p => "sha:" ++ p) true exCtrlState
     (some "k1") exCreateRunInput "k1" exClaim (by decide) (by decide) (by decide)
     (by decide)⟩

end Bob
